import Mathlib

/-!
# go-rtmp: message encoder, control stream handler, chunk streamer reader

A shallow embedding of `message/encoder.go`, `control_stream_handler.go` and
`chunk_streamer_reader.go`.

* Go's `uint32`, `uint8` and `int` values are natural numbers or integers; a
  conversion to `byte` is `% 256`, and the well-formedness of a field (below
  `2 ^ 32`) is a hypothesis where a statement needs it.
* An `io.Writer` is a value that logs the buffers it is handed, accumulates the
  bytes it accepts, and carries the outcomes of its next `Write` calls.
* The collaborators of the control stream handler (application handler, stream,
  stream registry, default handler) answer each call with an arbitrary outcome;
  the handler returns the calls it made, in order. The stream registry of the
  spec is a separate definition on which such a list of calls can be replayed.
* The underlying `io.Reader` of the chunk streamer reader answers each `Read`
  with an arbitrary count and error.
-/

namespace message

/-! ## Errors and the writer -/

/-- Error values returned by the encoder. The three `fmt.Errorf` sites of
`encoder.go` are three constructors; `transport` is an error that comes from a
collaborator (the writer, the AMF codec, the user-control event encoder). -/
inductive Error where
  | chunkSizeOutOfRange
  | notImplemented (what : String)
  | unexpectedMessageType (typeID : Nat)
  | transport (code : Nat)
  deriving DecidableEq, Repr

/-- A failing `Write`: the writer takes the first `accepted` bytes of the buffer
and returns the error `transport code`. -/
structure WriteFailure where
  accepted : Nat
  code : Nat
  deriving DecidableEq, Repr

/-- An `io.Writer`. `calls` are the buffers handed to `Write` so far, `written`
the bytes accepted so far, `pending` the outcomes of the next calls (`none`: the
whole buffer is accepted); once `pending` is used up every call succeeds. -/
structure Writer where
  calls : List (List Nat)
  written : List Nat
  pending : List (Option WriteFailure)
  deriving DecidableEq, Repr

/-- One call `w.Write(p)`: the writer afterwards, the count and the error. -/
def Writer.Write (w : Writer) (p : List Nat) : Writer × Nat × Option Error :=
  match w.pending with
  | [] => ({ calls := w.calls ++ [p], written := w.written ++ p, pending := [] }, p.length, none)
  | none :: rest =>
      ({ calls := w.calls ++ [p], written := w.written ++ p, pending := rest }, p.length, none)
  | some f :: rest =>
      ({ calls := w.calls ++ [p], written := w.written ++ p.take f.accepted, pending := rest },
        min f.accepted p.length, some (Error.transport f.code))

/-- A writer none of whose coming calls fails. -/
def Writer.neverFails (w : Writer) : Prop := ∀ o ∈ w.pending, o = none

instance (w : Writer) : Decidable w.neverFails := by
  unfold Writer.neverFails; infer_instance

/-- A fresh writer that never fails. -/
def Writer.fresh : Writer := { calls := [], written := [], pending := [] }

/-! ## Messages -/

/-- Modelled from the spec: the declarations of the command bodies are not among
the sources. The constructors are the command variants the spec lists, with the
fields the handler reads or sets; `Raw` is any other body (the spec's opaque
value list), `Nil` a nil interface value. -/
inductive Body where
  | NetConnectionConnect (Command : List (String × String))
  | NetConnectionConnectResult (FMSVer : String) (Capabilities : Nat) (Mode : Nat)
      (Level : String) (Code : String) (Data : List (String × String))
      (Application : Option String)
  | NetConnectionCreateStream
  | NetConnectionCreateStreamResult (StreamID : Nat)
  | NetStreamPublish (Name : String) (Kind : String)
  | NetStreamPlay (Args : List String)
  | NetStreamDeleteStream (StreamID : Nat)
  | Raw (Name : String) (Args : List String)
  | Nil
  deriving DecidableEq, Repr

/-- Modelled from the spec: `CommandMessage` is
`{commandName: string, transactionID: number, command: variant}`. -/
structure CommandMessage where
  CommandName : String
  TransactionID : Int
  Command : Body
  deriving DecidableEq, Repr

/-- Modelled from the spec: a data message has a name and the event data. -/
structure DataMessage where
  Name : String
  Data : Body
  deriving DecidableEq, Repr

/-- Modelled from the spec: a user-control event is a 2-byte event type and an
event body. -/
structure UserCtrlEvent where
  EventType : Nat
  EventBody : List Nat
  deriving DecidableEq, Repr

/-- Modelled from the spec: the message declarations are not among the sources.
The variants are the cases of the type switch of `Encoder.Encode`, with the
fields the encoder and the handler read: the 4-byte fields are `uint32`
(they are passed to `binary.BigEndian.PutUint32`), `Limit` is the 1-byte limit
type (an unsigned 8-bit integer, converted with `byte(m.Limit)`), payloads are
byte slices. `Unknown` is a message of any other type. -/
inductive Message where
  | SetChunkSize (ChunkSize : Nat)
  | AbortMessage (ChunkStreamID : Nat)
  | Ack (SequenceNumber : Nat)
  | UserCtrl (Event : UserCtrlEvent)
  | WinAckSize (Size : Nat)
  | SetPeerBandwidth (Size : Nat) (Limit : Nat)
  | AudioMessage (Payload : List Nat)
  | VideoMessage (Payload : List Nat)
  | DataMessageAMF3 (DataMessage : DataMessage)
  | SharedObjectMessageAMF3
  | CommandMessageAMF3 (CommandMessage : CommandMessage)
  | DataMessageAMF0 (DataMessage : DataMessage)
  | SharedObjectMessageAMF0
  | CommandMessageAMF0 (CommandMessage : CommandMessage)
  | AggregateMessage (Payload : List Nat)
  | Unknown (typeID : Nat)
  deriving DecidableEq, Repr

/-- Modelled from the spec: the 1-byte type id of each variant (section 3). -/
def Message.TypeID : Message → Nat
  | .SetChunkSize _ => 1
  | .AbortMessage _ => 2
  | .Ack _ => 3
  | .UserCtrl _ => 4
  | .WinAckSize _ => 5
  | .SetPeerBandwidth _ _ => 6
  | .AudioMessage _ => 8
  | .VideoMessage _ => 9
  | .DataMessageAMF3 _ => 15
  | .SharedObjectMessageAMF3 => 16
  | .CommandMessageAMF3 _ => 17
  | .DataMessageAMF0 _ => 18
  | .SharedObjectMessageAMF0 => 19
  | .CommandMessageAMF0 _ => 20
  | .AggregateMessage _ => 22
  | .Unknown typeID => typeID

/-- Field ranges of a message as Go's types give them: `uint32` fields are
below `2 ^ 32`, the limit type and every payload byte below `2 ^ 8`. -/
def Message.wellFormed : Message → Prop
  | .SetChunkSize ChunkSize => ChunkSize < 2 ^ 32
  | .AbortMessage ChunkStreamID => ChunkStreamID < 2 ^ 32
  | .Ack SequenceNumber => SequenceNumber < 2 ^ 32
  | .WinAckSize Size => Size < 2 ^ 32
  | .SetPeerBandwidth Size Limit => Size < 2 ^ 32 ∧ Limit < 2 ^ 8
  | .AudioMessage Payload => ∀ b ∈ Payload, b < 2 ^ 8
  | .VideoMessage Payload => ∀ b ∈ Payload, b < 2 ^ 8
  | .AggregateMessage Payload => ∀ b ∈ Payload, b < 2 ^ 8
  | _ => True

instance (m : Message) : Decidable m.wellFormed := by
  cases m <;> unfold Message.wellFormed <;> infer_instance

/-! ## The encoder -/

/-- The values the encoder hands to `AMFEncoder.Encode` itself: a name (string)
or a transaction id (number). -/
inductive AMFValue where
  | string (s : String)
  | number (n : Int)
  deriving DecidableEq, Repr

/-- The interface `AMFEncoder`: `Encode` writes a value to the writer the
encoder was made for and may fail. -/
structure AMFEncoder where
  Encode : AMFValue → Writer → Writer × Option Error

/-- The codecs that `encoder.go` calls and that are not among the sources:
`amf0.NewEncoder` (an external library) and the user-control event encoder. -/
structure Codecs where
  amf0NewEncoder : AMFEncoder
  userControlEventEncode : UserCtrlEvent → Writer → Writer × Option Error

/-- The struct `Encoder`: the writer and the AMF message composer. -/
structure Encoder where
  w : Writer
  amfMessageComposer : AMFEncoder → Body → Writer → Writer × Option Error

/-- The function `binary.BigEndian.PutUint32` on a 4-byte buffer. -/
def PutUint32 (v : Nat) : List Nat :=
  [(v >>> 24) % 256, (v >>> 16) % 256, (v >>> 8) % 256, v % 256]

/-- The method `encodeSetChunkSize`. -/
def Encoder.encodeSetChunkSize (enc : Encoder) (ChunkSize : Nat) : Encoder × Option Error :=
  if ChunkSize < 1 ∨ ChunkSize > 0x7fffffff then
    (enc, some Error.chunkSizeOutOfRange)
  else
    let buf := PutUint32 (ChunkSize &&& 0x7fffffff)
    match enc.w.Write buf with
    | (w, _, some err) => ({ enc with w := w }, some err)
    | (w, _, none) => ({ enc with w := w }, none)

/-- The method `encodeAbortMessage`. -/
def Encoder.encodeAbortMessage (enc : Encoder) (ChunkStreamID : Nat) : Encoder × Option Error :=
  let buf := PutUint32 ChunkStreamID
  match enc.w.Write buf with
  | (w, _, some err) => ({ enc with w := w }, some err)
  | (w, _, none) => ({ enc with w := w }, none)

/-- The method `encodeAck`. -/
def Encoder.encodeAck (enc : Encoder) (SequenceNumber : Nat) : Encoder × Option Error :=
  let buf := PutUint32 SequenceNumber
  match enc.w.Write buf with
  | (w, _, some err) => ({ enc with w := w }, some err)
  | (w, _, none) => ({ enc with w := w }, none)

/-- The method `encodeUserCtrl`. -/
def Encoder.encodeUserCtrl (c : Codecs) (enc : Encoder) (Event : UserCtrlEvent) :
    Encoder × Option Error :=
  match c.userControlEventEncode Event enc.w with
  | (w, r) => ({ enc with w := w }, r)

/-- The method `encodeWinAckSize`. -/
def Encoder.encodeWinAckSize (enc : Encoder) (Size : Nat) : Encoder × Option Error :=
  let buf := PutUint32 Size
  match enc.w.Write buf with
  | (w, _, some err) => ({ enc with w := w }, some err)
  | (w, _, none) => ({ enc with w := w }, none)

/-- The method `encodeSetPeerBandwidth`: `buf[4] = byte(m.Limit)`. -/
def Encoder.encodeSetPeerBandwidth (enc : Encoder) (Size Limit : Nat) : Encoder × Option Error :=
  let buf := PutUint32 Size ++ [Limit % 256]
  match enc.w.Write buf with
  | (w, _, some err) => ({ enc with w := w }, some err)
  | (w, _, none) => ({ enc with w := w }, none)

/-- The method `encodeAudioMessage`. -/
def Encoder.encodeAudioMessage (enc : Encoder) (Payload : List Nat) : Encoder × Option Error :=
  match enc.w.Write Payload with
  | (w, _, some err) => ({ enc with w := w }, some err)
  | (w, _, none) => ({ enc with w := w }, none)

/-- The method `encodeVideoMessage`. -/
def Encoder.encodeVideoMessage (enc : Encoder) (Payload : List Nat) : Encoder × Option Error :=
  match enc.w.Write Payload with
  | (w, _, some err) => ({ enc with w := w }, some err)
  | (w, _, none) => ({ enc with w := w }, none)

/-- The method `encodeDataMessageAMF3`. -/
def Encoder.encodeDataMessageAMF3 (enc : Encoder) (_m : DataMessage) : Encoder × Option Error :=
  (enc, some (Error.notImplemented "DataMessageAMF3"))

/-- The method `encodeSharedObjectMessageAMF3`. -/
def Encoder.encodeSharedObjectMessageAMF3 (enc : Encoder) : Encoder × Option Error :=
  (enc, some (Error.notImplemented "SharedObjectMessageAMF3"))

/-- The method `encodeCommandMessageAMF3`. -/
def Encoder.encodeCommandMessageAMF3 (enc : Encoder) (_m : CommandMessage) :
    Encoder × Option Error :=
  (enc, some (Error.notImplemented "CommandMessageAMF3"))

/-- The method `encodeDataMessage`. -/
def Encoder.encodeDataMessage (enc : Encoder) (e : AMFEncoder) (dataMsg : DataMessage) :
    Encoder × Option Error :=
  match e.Encode (AMFValue.string dataMsg.Name) enc.w with
  | (w1, some err) => ({ enc with w := w1 }, some err)
  | (w1, none) =>
    match enc.amfMessageComposer e dataMsg.Data w1 with
    | (w2, some err) => ({ enc with w := w2 }, some err)
    | (w2, none) => ({ enc with w := w2 }, none)

/-- The method `encodeCommandMessage`. -/
def Encoder.encodeCommandMessage (enc : Encoder) (e : AMFEncoder) (cmdMsg : CommandMessage) :
    Encoder × Option Error :=
  match e.Encode (AMFValue.string cmdMsg.CommandName) enc.w with
  | (w1, some err) => ({ enc with w := w1 }, some err)
  | (w1, none) =>
    match e.Encode (AMFValue.number cmdMsg.TransactionID) w1 with
    | (w2, some err) => ({ enc with w := w2 }, some err)
    | (w2, none) =>
      match enc.amfMessageComposer e cmdMsg.Command w2 with
      | (w3, some err) => ({ enc with w := w3 }, some err)
      | (w3, none) => ({ enc with w := w3 }, none)

/-- The method `encodeDataMessageAMF0`. -/
def Encoder.encodeDataMessageAMF0 (c : Codecs) (enc : Encoder) (m : DataMessage) :
    Encoder × Option Error :=
  enc.encodeDataMessage c.amf0NewEncoder m

/-- The method `encodeSharedObjectMessageAMF0`. -/
def Encoder.encodeSharedObjectMessageAMF0 (enc : Encoder) : Encoder × Option Error :=
  (enc, some (Error.notImplemented "SharedObjectMessageAMF0"))

/-- The method `encodeCommandMessageAMF0`. -/
def Encoder.encodeCommandMessageAMF0 (c : Codecs) (enc : Encoder) (m : CommandMessage) :
    Encoder × Option Error :=
  enc.encodeCommandMessage c.amf0NewEncoder m

/-- The method `encodeAggregateMessage`. -/
def Encoder.encodeAggregateMessage (enc : Encoder) (_Payload : List Nat) :
    Encoder × Option Error :=
  (enc, some (Error.notImplemented "AggregateMessage"))

/-- The method `Encoder.Encode`: the encoder afterwards and the returned error. -/
def Encoder.Encode (c : Codecs) (enc : Encoder) (msg : Message) : Encoder × Option Error :=
  match msg with
  | .SetChunkSize ChunkSize => enc.encodeSetChunkSize ChunkSize
  | .AbortMessage ChunkStreamID => enc.encodeAbortMessage ChunkStreamID
  | .Ack SequenceNumber => enc.encodeAck SequenceNumber
  | .UserCtrl Event => enc.encodeUserCtrl c Event
  | .WinAckSize Size => enc.encodeWinAckSize Size
  | .SetPeerBandwidth Size Limit => enc.encodeSetPeerBandwidth Size Limit
  | .AudioMessage Payload => enc.encodeAudioMessage Payload
  | .VideoMessage Payload => enc.encodeVideoMessage Payload
  | .DataMessageAMF3 m => enc.encodeDataMessageAMF3 m
  | .SharedObjectMessageAMF3 => enc.encodeSharedObjectMessageAMF3
  | .CommandMessageAMF3 m => enc.encodeCommandMessageAMF3 m
  | .DataMessageAMF0 m => enc.encodeDataMessageAMF0 c m
  | .SharedObjectMessageAMF0 => enc.encodeSharedObjectMessageAMF0
  | .CommandMessageAMF0 m => enc.encodeCommandMessageAMF0 c m
  | .AggregateMessage Payload => enc.encodeAggregateMessage Payload
  | .Unknown typeID => (enc, some (Error.unexpectedMessageType typeID))

/-- The first step of encoding a command message with the AMF0 encoder: the AMF0
encoding of `CommandName` on the encoder's writer. The writer afterwards and the
step's error. -/
def Encoder.commandNameStep (c : Codecs) (enc : Encoder) (cm : CommandMessage) :
    Writer × Option Error :=
  c.amf0NewEncoder.Encode (AMFValue.string cm.CommandName) enc.w

/-- The second step: the AMF0 encoding of `TransactionID` on the writer the first
step left. -/
def Encoder.transactionIDStep (c : Codecs) (enc : Encoder) (cm : CommandMessage) :
    Writer × Option Error :=
  c.amf0NewEncoder.Encode (AMFValue.number cm.TransactionID) (enc.commandNameStep c cm).1

/-- The third step: the composer on the command body, on the writer the second
step left. -/
def Encoder.commandBodyStep (c : Codecs) (enc : Encoder) (cm : CommandMessage) :
    Writer × Option Error :=
  enc.amfMessageComposer c.amf0NewEncoder cm.Command (enc.transactionIDStep c cm).1

/-- The bytes an `Encode` call makes the writer accept: what `written` gained. -/
def Encoder.output (c : Codecs) (enc : Encoder) (msg : Message) : List Nat :=
  (enc.Encode c msg).1.w.written.drop enc.w.written.length

/-! ## Decoding of the fixed-layout messages -/

/-- Modelled from the spec: the decoder is not among the sources. Four bytes
read as a big-endian unsigned integer. -/
def Uint32 : List Nat → Option Nat
  | [b0, b1, b2, b3] => some (b0 * 2 ^ 24 + b1 * 2 ^ 16 + b2 * 2 ^ 8 + b3)
  | _ => none

/-- Modelled from the spec: the decoder is not among the sources. Decoding is
the inverse of encoding: by type id, the 4-byte fields are read back as
big-endian unsigned integers, the fifth byte of `SetPeerBandwidth` is the limit
type, and the whole input is the audio or video payload. -/
def decodeFixed (typeID : Nat) (bytes : List Nat) : Option Message :=
  match typeID with
  | 1 => (Uint32 bytes).map Message.SetChunkSize
  | 2 => (Uint32 bytes).map Message.AbortMessage
  | 3 => (Uint32 bytes).map Message.Ack
  | 5 => (Uint32 bytes).map Message.WinAckSize
  | 6 =>
    match bytes with
    | [b0, b1, b2, b3, l] => (Uint32 [b0, b1, b2, b3]).map fun s => Message.SetPeerBandwidth s l
    | _ => none
  | 8 => some (Message.AudioMessage bytes)
  | 9 => some (Message.VideoMessage bytes)
  | _ => none

/-- The fixed-layout messages that `Encode` accepts: `SetChunkSize` with a
chunk size in `[1, 2 ^ 31 - 1]`, `AbortMessage`, `Ack`, `WinAckSize`,
`SetPeerBandwidth`, `AudioMessage` and `VideoMessage`. -/
def Message.fixedLayout : Message → Prop
  | .SetChunkSize ChunkSize => 1 ≤ ChunkSize ∧ ChunkSize ≤ 2 ^ 31 - 1
  | .AbortMessage _ => True
  | .Ack _ => True
  | .WinAckSize _ => True
  | .SetPeerBandwidth _ _ => True
  | .AudioMessage _ => True
  | .VideoMessage _ => True
  | _ => False

instance (m : Message) : Decidable m.fixedLayout := by
  cases m <;> unfold Message.fixedLayout <;> infer_instance

/-! ## Sample values -/

/-- A toy AMF encoder: a string is written as its length, a number as one byte. -/
def sampleAMFEncoder : AMFEncoder where
  Encode v w :=
    match v with
    | .string s => ((w.Write [s.length % 256]).1, (w.Write [s.length % 256]).2.2)
    | .number n => ((w.Write [n.toNat % 256]).1, (w.Write [n.toNat % 256]).2.2)

/-- Sample codecs for the concrete instances below. -/
def sampleCodecs : Codecs where
  amf0NewEncoder := sampleAMFEncoder
  userControlEventEncode ev w :=
    ((w.Write ([ev.EventType / 256 % 256, ev.EventType % 256] ++ ev.EventBody)).1,
      (w.Write ([ev.EventType / 256 % 256, ev.EventType % 256] ++ ev.EventBody)).2.2)

/-- A sample encoder over a fresh writer; its composer writes one marker byte. -/
def sampleEncoder : Encoder where
  w := Writer.fresh
  amfMessageComposer _ _ w := ((w.Write [5]).1, (w.Write [5]).2.2)

/-- A sample encoder over a writer whose second `Write` call fails with error 9
after taking no byte. -/
def failingEncoder : Encoder where
  w := { calls := [], written := [], pending := [none, some ⟨0, 9⟩] }
  amfMessageComposer _ _ w := ((w.Write [5]).1, (w.Write [5]).2.2)

/-- A sample encoder over a writer whose first `Write` call fails with error 9
after taking two bytes. -/
def brokenEncoder : Encoder where
  w := { calls := [], written := [], pending := [some ⟨2, 9⟩] }
  amfMessageComposer _ _ w := ((w.Write [5]).1, (w.Write [5]).2.2)

end message

namespace rtmp

open message

/-! ## The control stream handler -/

/-- The type `controlStreamState`, a `uint8`. -/
abbrev controlStreamState := Nat

/-- The constant `controlStreamStateNotConnected` (`iota` = 0). -/
def controlStreamStateNotConnected : controlStreamState := 0

/-- The constant `controlStreamStateConnected` (1). -/
def controlStreamStateConnected : controlStreamState := 1

/-- The struct `controlStreamHandler`; of its fields only `state` is data, the
others (`conn`, `defaultHandler`, `logger`) are collaborators. -/
structure controlStreamHandler where
  state : controlStreamState
  deriving DecidableEq, Repr

/-- What the collaborators answer during one `Handle` call: the error of
`conn.handler.OnConnect`, the value of `conn.streamer.selfState.windowSize`,
the error of the `k`-th `stream.Write` of the call (counted from 0), the result
of `conn.createStreamIfAvailable`, the error of `conn.deleteStream`, and the
error of `defaultHandler.Handle`. A nil error is `none`. -/
structure Outcomes where
  OnConnect : Option Error
  windowSize : Nat
  Write : Nat → Option Error
  createStreamIfAvailable : Except Error Nat
  deleteStream : Option Error
  defaultHandle : Option Error

/-- A call the handler makes on a collaborator, with its arguments. Logging is
left out. -/
inductive Event where
  | OnConnect (timestamp : Nat) (cmd : List (String × String))
  | Write (chunkStreamID : Int) (timestamp : Nat) (msg : Message)
  | createStreamIfAvailable
  | deleteStream (streamID : Nat)
  | defaultHandle (chunkStreamID : Int) (timestamp : Nat) (msg : Message)
  deriving DecidableEq, Repr

/-- How a call ends: it returns an error value (`none` is nil) or panics. -/
inductive Outcome where
  | returned (err : Option Error)
  | panicked
  deriving DecidableEq, Repr

/-- The handler after a call, the calls made on collaborators in order, and how
the call ended. -/
structure Result where
  h : controlStreamHandler
  trace : List Event
  outcome : Outcome
  deriving DecidableEq, Repr

/-- The type `amfWrapperFunc`: given the command message the callback fills in,
the wrapped message. -/
abbrev amfWrapperFunc := CommandMessage → Message

/-- Modelled from the spec: `amf0Wrapper` is not among the sources; responses
are always encoded as AMF0, so it wraps the command message as a
`CommandMessageAMF0`. -/
def amf0Wrapper : amfWrapperFunc := Message.CommandMessageAMF0

/-- The part of `handleConnect` after the label `handleCommand`. -/
def controlStreamHandler.handleConnect_handleCommand (h : controlStreamHandler) (o : Outcomes)
    (chunkStreamID : Int) (timestamp : Nat) (cmdMsgWrapper : amfWrapperFunc)
    (cmdMsg : CommandMessage) : Result :=
  match cmdMsg.Command with
  | .NetConnectionConnect cmd =>
    match o.OnConnect with
    | some err => ⟨h, [.OnConnect timestamp cmd], .returned (some err)⟩
    | none =>
      let m1 := Message.WinAckSize o.windowSize
      match o.Write 0 with
      | some err =>
        ⟨h, [.OnConnect timestamp cmd, .Write chunkStreamID timestamp m1], .returned (some err)⟩
      | none =>
        let m2 := Message.SetPeerBandwidth (1 * 1024 * 1024) 1
        match o.Write 1 with
        | some err =>
          ⟨h, [.OnConnect timestamp cmd, .Write chunkStreamID timestamp m1,
            .Write chunkStreamID timestamp m2], .returned (some err)⟩
        | none =>
          let m := cmdMsgWrapper
            { CommandName := "_result"
              TransactionID := 1
              Command := .NetConnectionConnectResult "rtmp/testing" 250 1 "status"
                "NetConnection.Connect.Success" [("version", "testing")] none }
          match m with
          | .CommandMessageAMF0 _ =>
            match o.Write 2 with
            | some err =>
              ⟨h, [.OnConnect timestamp cmd, .Write chunkStreamID timestamp m1,
                .Write chunkStreamID timestamp m2, .Write chunkStreamID timestamp m],
                .returned (some err)⟩
            | none =>
              ⟨{ h with state := controlStreamStateConnected },
                [.OnConnect timestamp cmd, .Write chunkStreamID timestamp m1,
                  .Write chunkStreamID timestamp m2, .Write chunkStreamID timestamp m],
                .returned none⟩
          | _ =>
            ⟨h, [.OnConnect timestamp cmd, .Write chunkStreamID timestamp m1,
              .Write chunkStreamID timestamp m2], .panicked⟩
  | _ => ⟨h, [], .returned none⟩

/-- The method `handleConnect`. -/
def controlStreamHandler.handleConnect (h : controlStreamHandler) (o : Outcomes)
    (chunkStreamID : Int) (timestamp : Nat) (msg : Message) : Result :=
  match msg with
  | .CommandMessageAMF0 m =>
    h.handleConnect_handleCommand o chunkStreamID timestamp amf0Wrapper m
  | .CommandMessageAMF3 m =>
    h.handleConnect_handleCommand o chunkStreamID timestamp amf0Wrapper m
  | _ => ⟨h, [.defaultHandle chunkStreamID timestamp msg], .returned o.defaultHandle⟩

/-- The part of `handleCreateStream` after the label `handleCommand`. -/
def controlStreamHandler.handleCreateStream_handleCommand (h : controlStreamHandler)
    (o : Outcomes) (chunkStreamID : Int) (timestamp : Nat) (cmdMsgWrapper : amfWrapperFunc)
    (cmdMsg : CommandMessage) : Result :=
  match cmdMsg.Command with
  | .NetConnectionCreateStream =>
    match o.createStreamIfAvailable with
    | .error _ => ⟨h, [.createStreamIfAvailable], .returned none⟩
    | .ok streamID =>
      let m := cmdMsgWrapper
        { CommandName := "_result"
          TransactionID := cmdMsg.TransactionID
          Command := .NetConnectionCreateStreamResult streamID }
      match o.Write 0 with
      | some err =>
        ⟨h, [.createStreamIfAvailable, .Write chunkStreamID timestamp m,
          .deleteStream streamID], .returned (some err)⟩
      | none =>
        ⟨h, [.createStreamIfAvailable, .Write chunkStreamID timestamp m], .returned none⟩
  | .NetStreamDeleteStream StreamID =>
    match o.deleteStream with
    | some err => ⟨h, [.deleteStream StreamID], .returned (some err)⟩
    | none => ⟨h, [.deleteStream StreamID], .returned none⟩
  | _ => ⟨h, [], .returned none⟩

/-- The method `handleCreateStream`. -/
def controlStreamHandler.handleCreateStream (h : controlStreamHandler) (o : Outcomes)
    (chunkStreamID : Int) (timestamp : Nat) (msg : Message) : Result :=
  match msg with
  | .CommandMessageAMF0 m =>
    h.handleCreateStream_handleCommand o chunkStreamID timestamp amf0Wrapper m
  | .CommandMessageAMF3 m =>
    h.handleCreateStream_handleCommand o chunkStreamID timestamp amf0Wrapper m
  | _ => ⟨h, [.defaultHandle chunkStreamID timestamp msg], .returned o.defaultHandle⟩

/-- The method `Handle`. -/
def controlStreamHandler.Handle (h : controlStreamHandler) (o : Outcomes)
    (chunkStreamID : Int) (timestamp : Nat) (msg : Message) : Result :=
  if h.state = controlStreamStateNotConnected then
    h.handleConnect o chunkStreamID timestamp msg
  else if h.state = controlStreamStateConnected then
    h.handleCreateStream o chunkStreamID timestamp msg
  else
    ⟨h, [], .panicked⟩

/-- One `Handle` call of a sequence: its arguments and what the collaborators
answer during it. -/
structure Call where
  chunkStreamID : Int
  timestamp : Nat
  msg : Message
  answers : Outcomes

/-- A sequence of `Handle` calls on one handler: the handler after the last
call, or `none` when a call panicked. -/
def controlStreamHandler.run : controlStreamHandler → List Call → Option controlStreamHandler
  | h, [] => some h
  | h, c :: cs =>
    match (h.Handle c.answers c.chunkStreamID c.timestamp c.msg).outcome with
    | .panicked => none
    | .returned _ =>
      controlStreamHandler.run (h.Handle c.answers c.chunkStreamID c.timestamp c.msg).h cs

/-- The handler a connection starts with. -/
def controlStreamHandler.initial : controlStreamHandler :=
  { state := controlStreamStateNotConnected }

/-- Whether a message is a `CommandMessageAMF0` or `CommandMessageAMF3` whose
`Command` is a `NetConnectionConnect`. -/
def isConnect : Message → Bool
  | .CommandMessageAMF0 m =>
    match m.Command with
    | .NetConnectionConnect _ => true
    | _ => false
  | .CommandMessageAMF3 m =>
    match m.Command with
    | .NetConnectionConnect _ => true
    | _ => false
  | _ => false

/-- Whether a message is a `CommandMessageAMF0` or a `CommandMessageAMF3`. -/
def isCommandMessage : Message → Bool
  | .CommandMessageAMF0 _ => true
  | .CommandMessageAMF3 _ => true
  | _ => false

/-- The messages written to the stream, in order, among the calls of a trace. -/
def writtenMessages : List Event → List Message
  | [] => []
  | .Write _ _ msg :: rest => msg :: writtenMessages rest
  | _ :: rest => writtenMessages rest

/-! ## The stream registry -/

/-- Modelled from the spec: the error `StreamsExhausted` of the stream registry,
which is not among the sources. -/
def StreamsExhausted : Error := Error.transport 1

/-- Modelled from the spec: the error of `deleteStream` for id 0 or an unknown id;
the stream registry is not among the sources. -/
def StreamNotFound : Error := Error.transport 2

/-- Modelled from the spec: the stream registry (section 4.E) is not among the
sources. It holds the set of allocated message-stream ids and the configured
maximum number of streams. -/
structure Registry where
  ids : Finset Nat
  maxStreams : Nat
  deriving DecidableEq

/-- Modelled from the spec: the stream registry is not among the sources.
`createStreamIfAvailable` picks the smallest unused id in `[1, maxStreams]` and
returns `StreamsExhausted` when there is none. -/
def Registry.createStreamIfAvailable (reg : Registry) : Except Error Nat × Registry :=
  match (List.range' 1 reg.maxStreams).find? fun k => decide (k ∉ reg.ids) with
  | some k => (.ok k, { reg with ids := insert k reg.ids })
  | none => (.error StreamsExhausted, reg)

/-- Modelled from the spec: the stream registry is not among the sources.
`deleteStream` fails for id 0 or an unknown id and frees the id otherwise. -/
def Registry.deleteStream (reg : Registry) (streamID : Nat) : Option Error × Registry :=
  if streamID = 0 ∨ streamID ∉ reg.ids then (some StreamNotFound, reg)
  else (none, { reg with ids := reg.ids.erase streamID })

/-- The registry after one call of the handler on a collaborator: only
`createStreamIfAvailable` and `deleteStream` touch it. -/
def Registry.step (reg : Registry) : Event → Registry
  | .createStreamIfAvailable => reg.createStreamIfAvailable.2
  | .deleteStream streamID => (reg.deleteStream streamID).2
  | _ => reg

/-- The registry after the calls of a trace, in order. -/
def Registry.replay (reg : Registry) (trace : List Event) : Registry :=
  trace.foldl Registry.step reg

/-- Modelled from the spec: the registry a connection starts with; the control
stream (id 0) is pre-installed and the default maximum is 8. -/
def Registry.initial : Registry := { ids := {0}, maxStreams := 8 }

/-! ## The chunk streamer reader -/

/-- What the underlying `io.Reader` answers to one `Read` call: the count `n`
(a Go `int`) and the error (`none` is nil). -/
structure ReadAnswer where
  n : Int
  err : Option Error
  deriving DecidableEq, Repr

/-- The conversion `uint64(n)` of a Go `int`. -/
def uint64 (n : Int) : Nat := (n % 2 ^ 64).toNat

/-- The struct `ChunkStreamerReader`; `reader` is a collaborator, whose answer is
an argument of `Read`. -/
structure ChunkStreamerReader where
  totalReadBytes : Nat
  deriving DecidableEq, Repr

/-- The method `Read`: the reader afterwards, the count and the error returned.
The addition is that of `uint64`. -/
def ChunkStreamerReader.Read (r : ChunkStreamerReader) (under : ReadAnswer) :
    ChunkStreamerReader × Int × Option Error :=
  ({ totalReadBytes := (r.totalReadBytes + uint64 under.n) % 2 ^ 64 }, under.n, under.err)

/-- A sequence of `Read` calls: the reader after the last one and what each call
returned. -/
def ChunkStreamerReader.readAll :
    ChunkStreamerReader → List ReadAnswer → ChunkStreamerReader × List (Int × Option Error)
  | r, [] => (r, [])
  | r, a :: rest =>
    ((ChunkStreamerReader.readAll (r.Read a).1 rest).1,
      (r.Read a).2 :: (ChunkStreamerReader.readAll (r.Read a).1 rest).2)

/-! ## Sample values -/

/-- Collaborators that all succeed; the window size is 2500000 and the registry
hands out stream id 1. -/
def allSucceed : Outcomes where
  OnConnect := none
  windowSize := 2500000
  Write _ := none
  createStreamIfAvailable := .ok 1
  deleteStream := none
  defaultHandle := none

/-- Collaborators whose default handler fails. -/
def defaultFails : Outcomes where
  OnConnect := none
  windowSize := 2500000
  Write _ := none
  createStreamIfAvailable := .ok 1
  deleteStream := none
  defaultHandle := some (Error.transport 7)

/-- The connect request of scenario S2. -/
def sampleConnect : Message :=
  .CommandMessageAMF0
    { CommandName := "connect", TransactionID := 1, Command := .NetConnectionConnect [("app", "live")] }

/-- The createStream request of scenario S3. -/
def sampleCreateStream : Message :=
  .CommandMessageAMF0
    { CommandName := "createStream", TransactionID := 2, Command := .NetConnectionCreateStream }

/-- Collaborators whose `OnConnect` fails with error 5. -/
def connectRefused : Outcomes where
  OnConnect := some (Error.transport 5)
  windowSize := 2500000
  Write _ := none
  createStreamIfAvailable := .ok 1
  deleteStream := none
  defaultHandle := none

/-- Collaborators whose registry fails, on allocation and on deletion. -/
def registryFails : Outcomes where
  OnConnect := none
  windowSize := 2500000
  Write _ := none
  createStreamIfAvailable := .error StreamsExhausted
  deleteStream := some StreamNotFound
  defaultHandle := none

/-- Collaborators whose stream writes fail with error 6 and whose `deleteStream`
fails too; the registry hands out stream id 1. -/
def writeFails : Outcomes where
  OnConnect := none
  windowSize := 2500000
  Write _ := some (Error.transport 6)
  createStreamIfAvailable := .ok 1
  deleteStream := some StreamNotFound
  defaultHandle := none

/-- The deleteStream request of scenario S6. -/
def sampleDeleteStream : Message :=
  .CommandMessageAMF0
    { CommandName := "deleteStream", TransactionID := 4, Command := .NetStreamDeleteStream 1 }

end rtmp

/-! # Theorems -/

namespace message

/-! ## Helper lemmas on the writer and on big-endian bytes -/

theorem Writer.Write_of_neverFails (w : Writer) (p : List Nat) (hw : w.neverFails) :
    w.Write p =
      ({ calls := w.calls ++ [p], written := w.written ++ p, pending := w.pending.tail },
        p.length, none) := by
  unfold Writer.Write
  cases hp : w.pending with
  | nil => rfl
  | cons o rest =>
    have ho : o = none := hw o (by rw [hp]; exact List.mem_cons_self _ _)
    subst ho
    rfl

theorem Writer.Write_calls (w : Writer) (p : List Nat) :
    (w.Write p).1.calls = w.calls ++ [p] := by
  unfold Writer.Write
  split <;> rfl

theorem PutUint32_eq (v : Nat) :
    PutUint32 v = [v / 2 ^ 24 % 256, v / 2 ^ 16 % 256, v / 2 ^ 8 % 256, v % 256] := by
  simp only [PutUint32, Nat.shiftRight_eq_div_pow]

theorem PutUint32_length (v : Nat) : (PutUint32 v).length = 4 := rfl

theorem Uint32_PutUint32 (v : Nat) (hv : v < 2 ^ 32) : Uint32 (PutUint32 v) = some v := by
  simp only [PutUint32_eq, Uint32, Option.some.injEq]
  omega

theorem mask_eq_self (v : Nat) (hv : v ≤ 2 ^ 31 - 1) : v &&& 0x7fffffff = v := by
  have h : (0x7fffffff : Nat) = 2 ^ 31 - 1 := by norm_num
  rw [h, Nat.and_pow_two_sub_one_eq_mod]
  exact Nat.mod_eq_of_lt (by omega)

/-- Under a writer that does not fail, `Encode` of a well-formed fixed-layout
message succeeds and the accepted bytes decode to the message. -/
theorem decodeFixed_output (c : Codecs) (enc : Encoder) (hw : enc.w.neverFails) (m : Message)
    (hwf : m.wellFormed) (hfl : m.fixedLayout) :
    (enc.Encode c m).2 = none ∧ decodeFixed m.TypeID (enc.output c m) = some m := by
  cases m <;>
    simp only [Message.fixedLayout, Message.wellFormed] at hfl hwf <;>
    simp only [Encoder.output, Encoder.Encode, Encoder.encodeSetChunkSize,
      Encoder.encodeAbortMessage, Encoder.encodeAck, Encoder.encodeWinAckSize,
      Encoder.encodeSetPeerBandwidth, Encoder.encodeAudioMessage, Encoder.encodeVideoMessage,
      Writer.Write_of_neverFails _ _ hw, Message.TypeID, decodeFixed, List.drop_left,
      true_and]
  case SetChunkSize ChunkSize =>
    have hn : ¬ (ChunkSize < 1 ∨ ChunkSize > 0x7fffffff) := by omega
    rw [if_neg hn]
    simp only [true_and, List.drop_left, mask_eq_self ChunkSize hfl.2,
      Uint32_PutUint32 ChunkSize hwf, Option.map_some']
  case AbortMessage v => simp only [Uint32_PutUint32 v hwf, Option.map_some']
  case Ack v => simp only [Uint32_PutUint32 v hwf, Option.map_some']
  case WinAckSize v => simp only [Uint32_PutUint32 v hwf, Option.map_some']
  case SetPeerBandwidth Size Limit =>
    have hl : Limit % 256 = Limit := Nat.mod_eq_of_lt hwf.2
    have hu := Uint32_PutUint32 Size hwf.1
    simp only [PutUint32_eq] at hu ⊢
    simp only [List.cons_append, List.nil_append, hu, hl, Option.map_some']

/-! ## C1: round trip of the fixed-layout messages -/

/-- C1. For every well-formed fixed-layout message (a `SetChunkSize` with chunk
size in `[1, 2 ^ 31 - 1]`, an `AbortMessage`, `Ack`, `WinAckSize`,
`SetPeerBandwidth`, `AudioMessage` or `VideoMessage`) and a writer that does not
fail, `Encode` succeeds, decoding the bytes it wrote gives back the message, and
`Encode` is injective on each variant: another such message of the same variant
with the same bytes is the same message. -/
theorem encode_decode_round_trip (c : Codecs) (enc : Encoder) (hw : enc.w.neverFails)
    (m : Message) (hwf : m.wellFormed) (hfl : m.fixedLayout) :
    (enc.Encode c m).2 = none ∧
    decodeFixed m.TypeID (enc.output c m) = some m ∧
    ∀ m2 : Message, m2.wellFormed → m2.fixedLayout → m2.TypeID = m.TypeID →
      enc.output c m2 = enc.output c m → m2 = m := by
  refine ⟨(decodeFixed_output c enc hw m hwf hfl).1, (decodeFixed_output c enc hw m hwf hfl).2, ?_⟩
  intro m2 hwf2 hfl2 hty hout
  have h1 := (decodeFixed_output c enc hw m2 hwf2 hfl2).2
  have h2 := (decodeFixed_output c enc hw m hwf hfl).2
  rw [hty, hout, h2] at h1
  exact (Option.some.inj h1).symm

/-- A concrete instance of C1: `SetPeerBandwidth(1048576, 1)` is written as
`00 10 00 00 01` and read back. -/
theorem encode_decode_round_trip_witness :
    sampleEncoder.w.neverFails ∧
    (Message.SetPeerBandwidth 1048576 1).wellFormed ∧
    (Message.SetPeerBandwidth 1048576 1).fixedLayout ∧
    sampleEncoder.output sampleCodecs (.SetPeerBandwidth 1048576 1) = [0, 16, 0, 0, 1] ∧
    decodeFixed 6 (sampleEncoder.output sampleCodecs (.SetPeerBandwidth 1048576 1)) =
      some (.SetPeerBandwidth 1048576 1) :=
  ⟨by decide, by decide, by decide, by decide,
    (encode_decode_round_trip sampleCodecs sampleEncoder (by decide)
      (.SetPeerBandwidth 1048576 1) (by decide) (by decide)).2.1⟩

/-! ## C2, C3: `SetChunkSize` -/

/-- C2. With a writer that does not fail, `Encode` of a `SetChunkSize` returns an
error exactly when `ChunkSize` is 0 or greater than `0x7fffffff`; in that case
the error is the range error and the encoder, its writer included, is unchanged:
no `Write` call was made and no byte written. -/
theorem encodeSetChunkSize_error_iff (c : Codecs) (enc : Encoder) (ChunkSize : Nat)
    (hw : enc.w.neverFails) :
    ((enc.Encode c (.SetChunkSize ChunkSize)).2 ≠ none ↔
      (ChunkSize = 0 ∨ ChunkSize > 0x7fffffff)) ∧
    ((ChunkSize = 0 ∨ ChunkSize > 0x7fffffff) →
      enc.Encode c (.SetChunkSize ChunkSize) = (enc, some Error.chunkSizeOutOfRange)) ∧
    ((enc.Encode c (.SetChunkSize ChunkSize)).2 = some Error.chunkSizeOutOfRange →
      (enc.Encode c (.SetChunkSize ChunkSize)).1 = enc) := by
  simp only [Encoder.Encode, Encoder.encodeSetChunkSize, Writer.Write_of_neverFails _ _ hw]
  by_cases h : ChunkSize < 1 ∨ ChunkSize > 0x7fffffff
  · have h2 : ChunkSize = 0 ∨ ChunkSize > 0x7fffffff := by omega
    simp only [if_pos h]
    simp [h2]
  · have h2 : ¬ (ChunkSize = 0 ∨ ChunkSize > 0x7fffffff) := by omega
    simp only [if_neg h]
    simp [h2]

/-- A concrete instance of C2: chunk size 0 and chunk size `0x80000000` are
refused and the encoder is left as it was. -/
theorem encodeSetChunkSize_error_iff_witness :
    sampleEncoder.w.neverFails ∧
    sampleEncoder.Encode sampleCodecs (.SetChunkSize 0) =
      (sampleEncoder, some Error.chunkSizeOutOfRange) ∧
    sampleEncoder.Encode sampleCodecs (.SetChunkSize 0x80000000) =
      (sampleEncoder, some Error.chunkSizeOutOfRange) :=
  ⟨by decide,
    (encodeSetChunkSize_error_iff sampleCodecs sampleEncoder 0 (by decide)).2.1 (Or.inl rfl),
    (encodeSetChunkSize_error_iff sampleCodecs sampleEncoder 0x80000000 (by decide)).2.1
      (Or.inr (by decide))⟩

/-- C3. For a `SetChunkSize` with `ChunkSize` in `[1, 2 ^ 31 - 1]`, `Encode` makes
one `Write` call, with exactly 4 bytes; they are the big-endian representation of
`ChunkSize` itself (the `0x7fffffff` mask changes nothing) and bit 7 of the first
byte is 0. With a writer that does not fail, `Encode` returns nil and the writer
accepts exactly these bytes. -/
theorem encodeSetChunkSize_bytes (c : Codecs) (enc : Encoder) (ChunkSize : Nat)
    (h1 : 1 ≤ ChunkSize) (h2 : ChunkSize ≤ 2 ^ 31 - 1) :
    ChunkSize &&& 0x7fffffff = ChunkSize ∧
    (enc.Encode c (.SetChunkSize ChunkSize)).1.w.calls = enc.w.calls ++ [PutUint32 ChunkSize] ∧
    (∃ b0 b1 b2 b3 : Nat, PutUint32 ChunkSize = [b0, b1, b2, b3] ∧
      b0 < 256 ∧ b1 < 256 ∧ b2 < 256 ∧ b3 < 256 ∧
      b0 * 2 ^ 24 + b1 * 2 ^ 16 + b2 * 2 ^ 8 + b3 = ChunkSize ∧
      b0.testBit 7 = false) ∧
    (enc.w.neverFails →
      (enc.Encode c (.SetChunkSize ChunkSize)).2 = none ∧
      (enc.Encode c (.SetChunkSize ChunkSize)).1.w.written =
        enc.w.written ++ PutUint32 ChunkSize ∧
      (enc.output c (.SetChunkSize ChunkSize)).length = 4) := by
  have hn : ¬ (ChunkSize < 1 ∨ ChunkSize > 0x7fffffff) := by omega
  have hm := mask_eq_self ChunkSize h2
  refine ⟨hm, ?_, ?_, ?_⟩
  · simp only [Encoder.Encode, Encoder.encodeSetChunkSize, if_neg hn, hm]
    have hc := Writer.Write_calls enc.w (PutUint32 ChunkSize)
    split <;> simp_all
  · refine ⟨ChunkSize / 2 ^ 24 % 256, ChunkSize / 2 ^ 16 % 256, ChunkSize / 2 ^ 8 % 256,
      ChunkSize % 256, PutUint32_eq ChunkSize, ?_, ?_, ?_, ?_, ?_, ?_⟩
    · omega
    · omega
    · omega
    · omega
    · omega
    · exact Nat.testBit_lt_two_pow (by omega)
  · intro hw
    simp only [Encoder.output, Encoder.Encode, Encoder.encodeSetChunkSize, if_neg hn, hm,
      Writer.Write_of_neverFails _ _ hw, List.drop_left, PutUint32_length, and_self]

/-- A concrete instance of C3: chunk size 4096 is written as `00 00 10 00`. -/
theorem encodeSetChunkSize_bytes_witness :
    (1 ≤ 4096 ∧ 4096 ≤ 2 ^ 31 - 1) ∧
    (sampleEncoder.Encode sampleCodecs (.SetChunkSize 4096)).1.w.calls = [[0, 0, 16, 0]] ∧
    (sampleEncoder.Encode sampleCodecs (.SetChunkSize 4096)).1.w.calls =
      sampleEncoder.w.calls ++ [PutUint32 4096] :=
  ⟨by decide, by decide,
    (encodeSetChunkSize_bytes sampleCodecs sampleEncoder 4096 (by decide) (by decide)).2.1⟩

/-! ## C8: the AMF3 variants -/

/-- C8, as amended. `Encode` of a `CommandMessageAMF3` or of a `DataMessageAMF3`
returns the error "Not implemented" and leaves the encoder and its writer
unchanged: no marker byte and no body is written. -/
theorem encode_amf3_not_implemented (c : Codecs) (enc : Encoder) (cm : CommandMessage)
    (dm : DataMessage) :
    enc.Encode c (.CommandMessageAMF3 cm) =
      (enc, some (Error.notImplemented "CommandMessageAMF3")) ∧
    enc.Encode c (.DataMessageAMF3 dm) = (enc, some (Error.notImplemented "DataMessageAMF3")) ∧
    enc.output c (.CommandMessageAMF3 cm) = [] ∧
    enc.output c (.DataMessageAMF3 dm) = [] := by
  simp [Encoder.output, Encoder.Encode, Encoder.encodeCommandMessageAMF3,
    Encoder.encodeDataMessageAMF3]

/-- C8 fails as stated: for the command `("_result", 1, createStream result 1)`
the AMF0 variant is encoded (bytes `07 01 05` with the sample codec) while the
AMF3 variant writes nothing, not a `00` marker followed by those bytes. -/
theorem encode_amf3_no_marker :
    sampleEncoder.output sampleCodecs
        (.CommandMessageAMF0 ⟨"_result", 1, .NetConnectionCreateStreamResult 1⟩) = [7, 1, 5] ∧
    sampleEncoder.output sampleCodecs
        (.CommandMessageAMF3 ⟨"_result", 1, .NetConnectionCreateStreamResult 1⟩) = [] ∧
    sampleEncoder.output sampleCodecs
        (.CommandMessageAMF3 ⟨"_result", 1, .NetConnectionCreateStreamResult 1⟩) ≠
      0 :: sampleEncoder.output sampleCodecs
        (.CommandMessageAMF0 ⟨"_result", 1, .NetConnectionCreateStreamResult 1⟩) := by
  refine ⟨by decide, by decide, by decide⟩

/-! ## C9: `SetPeerBandwidth` -/

theorem Writer.Write_written_of_ok (w : Writer) (p : List Nat) (h : (w.Write p).2.2 = none) :
    (w.Write p).1.written = w.written ++ p := by
  unfold Writer.Write at h ⊢
  split <;> simp_all

/-- C9, as amended. For every well-formed `SetPeerBandwidth` that `Encode`
encodes successfully, one `Write` call is made and exactly 5 bytes are written:
the first four are the big-endian representation of `Size`, and the fifth is the
message's `Limit` as it is, whatever its value. -/
theorem encodeSetPeerBandwidth_bytes (c : Codecs) (enc : Encoder) (Size Limit : Nat)
    (hwf : (Message.SetPeerBandwidth Size Limit).wellFormed)
    (hok : (enc.Encode c (.SetPeerBandwidth Size Limit)).2 = none) :
    (enc.Encode c (.SetPeerBandwidth Size Limit)).1.w.calls =
      enc.w.calls ++ [PutUint32 Size ++ [Limit]] ∧
    enc.output c (.SetPeerBandwidth Size Limit) = PutUint32 Size ++ [Limit] ∧
    (enc.output c (.SetPeerBandwidth Size Limit)).length = 5 ∧
    ∃ b0 b1 b2 b3 : Nat, PutUint32 Size = [b0, b1, b2, b3] ∧
      b0 < 256 ∧ b1 < 256 ∧ b2 < 256 ∧ b3 < 256 ∧
      b0 * 2 ^ 24 + b1 * 2 ^ 16 + b2 * 2 ^ 8 + b3 = Size := by
  have hl : Limit % 256 = Limit := Nat.mod_eq_of_lt hwf.2
  have hS : Size < 2 ^ 32 := hwf.1
  simp only [Encoder.output, Encoder.Encode, Encoder.encodeSetPeerBandwidth, hl] at hok ⊢
  have hW := Writer.Write_written_of_ok enc.w (PutUint32 Size ++ [Limit])
  have hC := Writer.Write_calls enc.w (PutUint32 Size ++ [Limit])
  rcases hr : enc.w.Write (PutUint32 Size ++ [Limit]) with ⟨w2, n, e⟩
  rw [hr] at hok hW hC
  cases e with
  | some err => simp at hok
  | none =>
    simp only [forall_const] at hW
    refine ⟨hC, ?_, ?_, ?_⟩
    · simp only [hW, List.drop_left]
    · simp only [hW, List.drop_left, List.length_append, PutUint32_length, List.length_singleton]
    · refine ⟨Size / 2 ^ 24 % 256, Size / 2 ^ 16 % 256, Size / 2 ^ 8 % 256, Size % 256,
        PutUint32_eq Size, ?_, ?_, ?_, ?_, ?_⟩ <;> omega

/-- A concrete instance of C9: `SetPeerBandwidth(1048576, 1)` over the sample
encoder. -/
theorem encodeSetPeerBandwidth_bytes_witness :
    (Message.SetPeerBandwidth 1048576 1).wellFormed ∧
    (sampleEncoder.Encode sampleCodecs (.SetPeerBandwidth 1048576 1)).2 = none ∧
    sampleEncoder.output sampleCodecs (.SetPeerBandwidth 1048576 1) = PutUint32 1048576 ++ [1] :=
  ⟨by decide, by decide,
    (encodeSetPeerBandwidth_bytes sampleCodecs sampleEncoder 1048576 1 (by decide)
      (by decide)).2.1⟩

/-- C9 fails as stated: a `SetPeerBandwidth` with `Limit` 3 is well formed, is
encoded successfully, and its fifth byte is 3, none of 0, 1 and 2. -/
theorem encodeSetPeerBandwidth_limit_unchecked :
    (Message.SetPeerBandwidth 0 3).wellFormed ∧
    (sampleEncoder.Encode sampleCodecs (.SetPeerBandwidth 0 3)).2 = none ∧
    sampleEncoder.output sampleCodecs (.SetPeerBandwidth 0 3) = [0, 0, 0, 0, 3] ∧
    ¬ ((sampleEncoder.output sampleCodecs (.SetPeerBandwidth 0 3)).get? 4 = some 0 ∨
       (sampleEncoder.output sampleCodecs (.SetPeerBandwidth 0 3)).get? 4 = some 1 ∨
       (sampleEncoder.output sampleCodecs (.SetPeerBandwidth 0 3)).get? 4 = some 2) := by
  refine ⟨by decide, by decide, by decide, by decide⟩

end message

namespace rtmp

open message

/-! ## Helper lemmas on one `Handle` call and on sequences -/

/-- One `Handle` call from a state that is `NotConnected` or `Connected` does not
panic, ends in such a state, and does not leave `Connected`. -/
theorem Handle_step (h : controlStreamHandler) (o : Outcomes) (chunkStreamID : Int)
    (timestamp : Nat) (msg : Message)
    (hs : h.state = controlStreamStateNotConnected ∨ h.state = controlStreamStateConnected) :
    (∃ err, (h.Handle o chunkStreamID timestamp msg).outcome = .returned err) ∧
    ((h.Handle o chunkStreamID timestamp msg).h.state = controlStreamStateNotConnected ∨
      (h.Handle o chunkStreamID timestamp msg).h.state = controlStreamStateConnected) ∧
    (h.state = controlStreamStateConnected →
      (h.Handle o chunkStreamID timestamp msg).h.state = controlStreamStateConnected) := by
  rcases hs with hs | hs
  · have hne : h.state ≠ controlStreamStateConnected := by
      rw [hs]; decide
    simp only [controlStreamHandler.Handle, if_pos hs, controlStreamHandler.handleConnect,
      controlStreamHandler.handleConnect_handleCommand, amf0Wrapper]
    refine ⟨?_, ?_, fun hc => absurd hc hne⟩
    · repeat' split
      all_goals simp
    · repeat' split
      all_goals simp [hs]
  · have hne : h.state ≠ controlStreamStateNotConnected := by
      rw [hs]; decide
    simp only [controlStreamHandler.Handle, if_neg hne, if_pos hs,
      controlStreamHandler.handleCreateStream,
      controlStreamHandler.handleCreateStream_handleCommand, amf0Wrapper]
    refine ⟨?_, ?_, fun _ => ?_⟩
    · repeat' split
      all_goals simp
    · repeat' split
      all_goals simp [hs]
    · repeat' split
      all_goals simp [hs]

theorem run_append (h : controlStreamHandler) (pre post : List Call) :
    h.run (pre ++ post) = (h.run pre).bind fun h1 => h1.run post := by
  induction pre generalizing h with
  | nil => rfl
  | cons c cs ih =>
    simp only [List.cons_append, controlStreamHandler.run]
    split
    · rfl
    · exact ih _

/-- A sequence of calls from a state that is `NotConnected` or `Connected` never
panics and ends in such a state. -/
theorem run_valid (calls : List Call) (h : controlStreamHandler)
    (hs : h.state = controlStreamStateNotConnected ∨ h.state = controlStreamStateConnected) :
    ∃ h2, h.run calls = some h2 ∧
      (h2.state = controlStreamStateNotConnected ∨ h2.state = controlStreamStateConnected) := by
  induction calls generalizing h with
  | nil => exact ⟨h, rfl, hs⟩
  | cons c cs ih =>
    obtain ⟨⟨err, he⟩, hv, _⟩ := Handle_step h c.answers c.chunkStreamID c.timestamp c.msg hs
    simp only [controlStreamHandler.run, he]
    exact ih _ hv

/-- A sequence of calls from `Connected` never panics and ends in `Connected`. -/
theorem run_connected (calls : List Call) (h : controlStreamHandler)
    (hs : h.state = controlStreamStateConnected) :
    ∃ h2, h.run calls = some h2 ∧ h2.state = controlStreamStateConnected := by
  induction calls generalizing h with
  | nil => exact ⟨h, rfl, hs⟩
  | cons c cs ih =>
    obtain ⟨⟨err, he⟩, _, hc⟩ :=
      Handle_step h c.answers c.chunkStreamID c.timestamp c.msg (Or.inr hs)
    simp only [controlStreamHandler.run, he]
    exact ih _ (hc hs)

/-! ## C4: the state never returns to `NotConnected` -/

/-- C4. For every finite sequence of `Handle` calls from `NotConnected`, with any
messages and any answers of the application handler, the stream writes and the
registry: no call panics, the state at the end is `NotConnected` or `Connected`,
and if the state is `Connected` after a first part of the sequence it is
`Connected` after the whole sequence. -/
theorem state_never_returns (calls : List Call) :
    (∃ h, controlStreamHandler.initial.run calls = some h ∧
      (h.state = controlStreamStateNotConnected ∨ h.state = controlStreamStateConnected)) ∧
    (∀ pre post : List Call, calls = pre ++ post →
      ∀ h1, controlStreamHandler.initial.run pre = some h1 →
        h1.state = controlStreamStateConnected →
        ∃ h2, controlStreamHandler.initial.run calls = some h2 ∧
          h2.state = controlStreamStateConnected) := by
  refine ⟨run_valid calls _ (Or.inl rfl), ?_⟩
  intro pre post hcalls h1 hpre hconn
  rw [hcalls, run_append, hpre]
  exact run_connected post h1 hconn

/-- A concrete run for C4: after a connect, a createStream and an audio message
keep the handler in `Connected`. -/
theorem state_never_returns_witness :
    controlStreamHandler.initial.run [⟨3, 0, sampleConnect, allSucceed⟩] =
      some ⟨controlStreamStateConnected⟩ ∧
    controlStreamHandler.initial.run
      [⟨3, 0, sampleConnect, allSucceed⟩, ⟨3, 0, sampleCreateStream, defaultFails⟩,
        ⟨4, 10, .AudioMessage [1, 2], defaultFails⟩] = some ⟨controlStreamStateConnected⟩ :=
  ⟨by decide,
    ((state_never_returns
      [⟨3, 0, sampleConnect, allSucceed⟩, ⟨3, 0, sampleCreateStream, defaultFails⟩,
        ⟨4, 10, .AudioMessage [1, 2], defaultFails⟩]).2
      [⟨3, 0, sampleConnect, allSucceed⟩]
      [⟨3, 0, sampleCreateStream, defaultFails⟩, ⟨4, 10, .AudioMessage [1, 2], defaultFails⟩]
      rfl ⟨controlStreamStateConnected⟩ (by decide) rfl).elim
      fun h2 hh => by
        rw [hh.1]
        cases h2
        simp only [Option.some.injEq, controlStreamHandler.mk.injEq]
        exact hh.2⟩

/-! ## C5, C6: `connect` in `NotConnected` -/

/-- C5. A `Handle` call made in `NotConnected` ends in `Connected` exactly when
the message is a `CommandMessageAMF0` or `CommandMessageAMF3` whose `Command` is
a `NetConnectionConnect`, `OnConnect` returns no error and the three writes
succeed; then `Handle` returns nil, and in every other case the state is still
`NotConnected`. -/
theorem connected_iff_connect_succeeds (h : controlStreamHandler) (o : Outcomes)
    (chunkStreamID : Int) (timestamp : Nat) (msg : Message)
    (hs : h.state = controlStreamStateNotConnected) :
    ((h.Handle o chunkStreamID timestamp msg).h.state = controlStreamStateConnected ↔
      (isConnect msg = true ∧ o.OnConnect = none ∧
        o.Write 0 = none ∧ o.Write 1 = none ∧ o.Write 2 = none)) ∧
    ((h.Handle o chunkStreamID timestamp msg).h.state = controlStreamStateConnected →
      (h.Handle o chunkStreamID timestamp msg).outcome = .returned none) ∧
    ((h.Handle o chunkStreamID timestamp msg).h.state ≠ controlStreamStateConnected →
      (h.Handle o chunkStreamID timestamp msg).h.state = controlStreamStateNotConnected) := by
  have hne : h.state ≠ controlStreamStateConnected := by
    rw [hs]; decide
  simp only [controlStreamHandler.Handle, if_pos hs, controlStreamHandler.handleConnect,
    controlStreamHandler.handleConnect_handleCommand, amf0Wrapper, isConnect]
  refine ⟨?_, ?_, ?_⟩
  · repeat' split
    all_goals simp_all
  · repeat' split
    all_goals simp_all
  · repeat' split
    all_goals simp_all

/-- A concrete instance of C5: the connect request of scenario S2, with every
collaborator succeeding, moves the initial handler to `Connected`. -/
theorem connected_iff_connect_succeeds_witness :
    controlStreamHandler.initial.state = controlStreamStateNotConnected ∧
    (controlStreamHandler.initial.Handle allSucceed 3 0 sampleConnect).h.state =
      controlStreamStateConnected :=
  ⟨rfl,
    (connected_iff_connect_succeeds controlStreamHandler.initial allSucceed 3 0 sampleConnect
      rfl).1.mpr ⟨rfl, rfl, rfl, rfl, rfl⟩⟩

/-- C6. For a connect command (AMF0 or AMF3, any transaction id) handled in
`NotConnected` whose `OnConnect` and writes succeed, the calls `Handle` makes are
exactly: `OnConnect` once, then three writes on the request's chunk-stream id and
timestamp, of `WinAckSize` with the streamer's own window size, of
`SetPeerBandwidth` with `Size` 1048576 and `Limit` 1, and of a command message
named "_result" with `TransactionID` 1, `Capabilities` 250, `Mode` 1, `Level`
"status" and `Code` "NetConnection.Connect.Success". -/
theorem connect_reply (h : controlStreamHandler) (o : Outcomes) (chunkStreamID : Int)
    (timestamp : Nat) (msg : Message) (cm : CommandMessage) (cmd : List (String × String))
    (hs : h.state = controlStreamStateNotConnected)
    (hmsg : msg = .CommandMessageAMF0 cm ∨ msg = .CommandMessageAMF3 cm)
    (hcmd : cm.Command = .NetConnectionConnect cmd)
    (hon : o.OnConnect = none)
    (hw0 : o.Write 0 = none) (hw1 : o.Write 1 = none) (hw2 : o.Write 2 = none) :
    (h.Handle o chunkStreamID timestamp msg).trace =
      [.OnConnect timestamp cmd,
        .Write chunkStreamID timestamp (.WinAckSize o.windowSize),
        .Write chunkStreamID timestamp (.SetPeerBandwidth 1048576 1),
        .Write chunkStreamID timestamp
          (.CommandMessageAMF0
            { CommandName := "_result"
              TransactionID := 1
              Command := .NetConnectionConnectResult "rtmp/testing" 250 1 "status"
                "NetConnection.Connect.Success" [("version", "testing")] none })] ∧
    (h.Handle o chunkStreamID timestamp msg).outcome = .returned none := by
  rcases hmsg with hmsg | hmsg <;>
    simp [hmsg, controlStreamHandler.Handle, if_pos hs, controlStreamHandler.handleConnect,
      controlStreamHandler.handleConnect_handleCommand, amf0Wrapper, hcmd, hon, hw0, hw1, hw2]

/-- A concrete instance of C6: scenario S2, with a request whose transaction id
is 7 and which arrives as AMF3. -/
theorem connect_reply_witness :
    (controlStreamHandler.initial.Handle allSucceed 3 42
      (.CommandMessageAMF3 ⟨"connect", 7, .NetConnectionConnect [("app", "live")]⟩)).trace =
      [.OnConnect 42 [("app", "live")],
        .Write 3 42 (.WinAckSize 2500000),
        .Write 3 42 (.SetPeerBandwidth 1048576 1),
        .Write 3 42
          (.CommandMessageAMF0
            { CommandName := "_result"
              TransactionID := 1
              Command := .NetConnectionConnectResult "rtmp/testing" 250 1 "status"
                "NetConnection.Connect.Success" [("version", "testing")] none })] :=
  (connect_reply controlStreamHandler.initial allSucceed 3 42
    (.CommandMessageAMF3 ⟨"connect", 7, .NetConnectionConnect [("app", "live")]⟩)
    ⟨"connect", 7, .NetConnectionConnect [("app", "live")]⟩ [("app", "live")]
    rfl (Or.inr rfl) rfl rfl rfl rfl rfl).1

/-! ## C7: `createStream` in `Connected` -/

/-- C7. For a createStream command (AMF0 or AMF3) handled in `Connected` for which
the registry allocates an id and the write succeeds, `Handle` asks the registry
once and writes exactly one message, on the request's chunk-stream id and
timestamp: a command named "_result" whose `TransactionID` is the request's and
whose body is a `NetConnectionCreateStreamResult` with the allocated stream id;
`Handle` returns nil. -/
theorem createStream_reply (h : controlStreamHandler) (o : Outcomes) (chunkStreamID : Int)
    (timestamp : Nat) (msg : Message) (cm : CommandMessage) (streamID : Nat)
    (hs : h.state = controlStreamStateConnected)
    (hmsg : msg = .CommandMessageAMF0 cm ∨ msg = .CommandMessageAMF3 cm)
    (hcmd : cm.Command = .NetConnectionCreateStream)
    (hreg : o.createStreamIfAvailable = .ok streamID)
    (hw0 : o.Write 0 = none) :
    (h.Handle o chunkStreamID timestamp msg).trace =
      [.createStreamIfAvailable,
        .Write chunkStreamID timestamp
          (.CommandMessageAMF0
            { CommandName := "_result"
              TransactionID := cm.TransactionID
              Command := .NetConnectionCreateStreamResult streamID })] ∧
    (h.Handle o chunkStreamID timestamp msg).outcome = .returned none := by
  have hne : h.state ≠ controlStreamStateNotConnected := by
    rw [hs]; decide
  rcases hmsg with hmsg | hmsg <;>
    simp [hmsg, controlStreamHandler.Handle, if_neg hne, if_pos hs,
      controlStreamHandler.handleCreateStream,
      controlStreamHandler.handleCreateStream_handleCommand, amf0Wrapper, hcmd, hreg, hw0]

/-- A concrete instance of C7: scenario S3, the reply to `createStream` with
transaction id 2 carries transaction id 2 and stream id 1. -/
theorem createStream_reply_witness :
    (controlStreamHandler.Handle ⟨controlStreamStateConnected⟩ allSucceed 3 0
      sampleCreateStream).trace =
      [.createStreamIfAvailable,
        .Write 3 0
          (.CommandMessageAMF0
            { CommandName := "_result"
              TransactionID := 2
              Command := .NetConnectionCreateStreamResult 1 })] :=
  (createStream_reply ⟨controlStreamStateConnected⟩ allSucceed 3 0 sampleCreateStream
    ⟨"createStream", 2, .NetConnectionCreateStream⟩ 1 rfl (Or.inl rfl) rfl rfl rfl).1

/-! ## C10: other messages in `NotConnected` -/

/-- C10, as amended. In `NotConnected`, a message that is not a command message
is passed to the default handler, with the call's chunk-stream id and timestamp,
and `Handle` returns what the default handler returns; a command message whose
`Command` is not a `NetConnectionConnect` is not passed on: `Handle` makes no
call and returns nil. In both cases the handler is unchanged. -/
theorem notConnected_other_messages (h : controlStreamHandler) (o : Outcomes)
    (chunkStreamID : Int) (timestamp : Nat) (msg : Message)
    (hs : h.state = controlStreamStateNotConnected) (hn : isConnect msg = false) :
    (isCommandMessage msg = false →
      h.Handle o chunkStreamID timestamp msg =
        ⟨h, [.defaultHandle chunkStreamID timestamp msg], .returned o.defaultHandle⟩) ∧
    (isCommandMessage msg = true →
      h.Handle o chunkStreamID timestamp msg = ⟨h, [], .returned none⟩) := by
  simp only [controlStreamHandler.Handle, if_pos hs, controlStreamHandler.handleConnect,
    controlStreamHandler.handleConnect_handleCommand, amf0Wrapper]
  cases msg <;> simp only [isCommandMessage, isConnect] at hn ⊢ <;> simp
  all_goals
    split
    · simp_all
    · rfl

/-- A concrete instance of C10 as amended: an audio message in `NotConnected`
goes to the default handler, whose error is returned. -/
theorem notConnected_other_messages_witness :
    controlStreamHandler.initial.state = controlStreamStateNotConnected ∧
    isConnect (.AudioMessage [1, 2]) = false ∧
    controlStreamHandler.initial.Handle defaultFails 4 10 (.AudioMessage [1, 2]) =
      ⟨controlStreamHandler.initial, [.defaultHandle 4 10 (.AudioMessage [1, 2])],
        .returned (some (Error.transport 7))⟩ :=
  ⟨rfl, rfl,
    (notConnected_other_messages controlStreamHandler.initial defaultFails 4 10
      (.AudioMessage [1, 2]) rfl rfl).1 rfl⟩

/-- C10 fails as stated: a createStream command in `NotConnected` is not a
`NetConnectionConnect`, yet the default handler is not called, and `Handle`
returns nil although the default handler would return an error. -/
theorem notConnected_createStream_not_delegated :
    isConnect sampleCreateStream = false ∧
    defaultFails.defaultHandle = some (Error.transport 7) ∧
    (controlStreamHandler.initial.Handle defaultFails 3 0 sampleCreateStream).trace = [] ∧
    (controlStreamHandler.initial.Handle defaultFails 3 0 sampleCreateStream).outcome =
      .returned none ∧
    (controlStreamHandler.initial.Handle defaultFails 3 0 sampleCreateStream).outcome ≠
      .returned defaultFails.defaultHandle := by
  refine ⟨by decide, by decide, by decide, by decide, by decide⟩

end rtmp

namespace rtmp

open message

/-! ## C11: `OnConnect` fails -/

/-- C11. If `OnConnect` returns an error for a connect command (AMF0 or AMF3)
handled in `NotConnected`, `Handle` returns that same error, the only call it
made is `OnConnect`, so no message is written to the stream, and the handler
stays in `NotConnected`. -/
theorem onConnect_error (h : controlStreamHandler) (o : Outcomes) (chunkStreamID : Int)
    (timestamp : Nat) (msg : Message) (cm : CommandMessage) (cmd : List (String × String))
    (err : Error)
    (hs : h.state = controlStreamStateNotConnected)
    (hmsg : msg = .CommandMessageAMF0 cm ∨ msg = .CommandMessageAMF3 cm)
    (hcmd : cm.Command = .NetConnectionConnect cmd)
    (hon : o.OnConnect = some err) :
    h.Handle o chunkStreamID timestamp msg =
      ⟨h, [.OnConnect timestamp cmd], .returned (some err)⟩ ∧
    writtenMessages (h.Handle o chunkStreamID timestamp msg).trace = [] ∧
    (h.Handle o chunkStreamID timestamp msg).h.state = controlStreamStateNotConnected := by
  rcases hmsg with hmsg | hmsg <;>
    simp only [hmsg, controlStreamHandler.Handle, if_pos hs] <;>
    simp [controlStreamHandler.handleConnect,
      controlStreamHandler.handleConnect_handleCommand, hcmd, hon, writtenMessages, hs]

/-- A concrete instance of C11: the application refuses the connect request of
scenario S2 with error 5. -/
theorem onConnect_error_witness :
    controlStreamHandler.initial.Handle connectRefused 3 0 sampleConnect =
      ⟨controlStreamHandler.initial, [.OnConnect 0 [("app", "live")]],
        .returned (some (Error.transport 5))⟩ :=
  (onConnect_error controlStreamHandler.initial connectRefused 3 0 sampleConnect
    ⟨"connect", 1, .NetConnectionConnect [("app", "live")]⟩ [("app", "live")]
    (Error.transport 5) rfl (Or.inl rfl) rfl rfl).1

/-! ## C12, C13: `deleteStream` and a failed `createStream` in `Connected` -/

/-- C12. For a `NetStreamDeleteStream` command (AMF0 or AMF3) handled in
`Connected`, the only call `Handle` makes is `deleteStream` with the command's
`StreamID`; no message is written, `Handle` returns exactly what `deleteStream`
returned, and the state is still `Connected`. -/
theorem deleteStream_handled (h : controlStreamHandler) (o : Outcomes) (chunkStreamID : Int)
    (timestamp : Nat) (msg : Message) (cm : CommandMessage) (StreamID : Nat)
    (hs : h.state = controlStreamStateConnected)
    (hmsg : msg = .CommandMessageAMF0 cm ∨ msg = .CommandMessageAMF3 cm)
    (hcmd : cm.Command = .NetStreamDeleteStream StreamID) :
    h.Handle o chunkStreamID timestamp msg =
      ⟨h, [.deleteStream StreamID], .returned o.deleteStream⟩ ∧
    writtenMessages (h.Handle o chunkStreamID timestamp msg).trace = [] ∧
    (h.Handle o chunkStreamID timestamp msg).h.state = controlStreamStateConnected := by
  have hne : h.state ≠ controlStreamStateNotConnected := by
    rw [hs]; decide
  rcases hmsg with hmsg | hmsg <;> cases hd : o.deleteStream <;>
    simp only [hmsg, controlStreamHandler.Handle, if_neg hne, if_pos hs] <;>
    simp [controlStreamHandler.handleCreateStream,
      controlStreamHandler.handleCreateStream_handleCommand, hcmd, hd, writtenMessages, hs]

/-- A concrete instance of C12: `deleteStream(1)` with a registry that fails. -/
theorem deleteStream_handled_witness :
    controlStreamHandler.Handle ⟨controlStreamStateConnected⟩ registryFails 3 0
      sampleDeleteStream =
      ⟨⟨controlStreamStateConnected⟩, [.deleteStream 1], .returned (some StreamNotFound)⟩ :=
  (deleteStream_handled ⟨controlStreamStateConnected⟩ registryFails 3 0 sampleDeleteStream
    ⟨"deleteStream", 4, .NetStreamDeleteStream 1⟩ 1 rfl (Or.inl rfl) rfl).1

/-- C13. When a createStream command (AMF0 or AMF3) is handled in `Connected` and
the registry cannot allocate a stream id, the only call `Handle` makes is the
allocation attempt: no message is written, `Handle` returns nil and not the
allocation error, and the state is still `Connected`. -/
theorem createStream_allocation_failure (h : controlStreamHandler) (o : Outcomes)
    (chunkStreamID : Int) (timestamp : Nat) (msg : Message) (cm : CommandMessage) (err : Error)
    (hs : h.state = controlStreamStateConnected)
    (hmsg : msg = .CommandMessageAMF0 cm ∨ msg = .CommandMessageAMF3 cm)
    (hcmd : cm.Command = .NetConnectionCreateStream)
    (hreg : o.createStreamIfAvailable = .error err) :
    h.Handle o chunkStreamID timestamp msg =
      ⟨h, [.createStreamIfAvailable], .returned none⟩ ∧
    writtenMessages (h.Handle o chunkStreamID timestamp msg).trace = [] ∧
    (h.Handle o chunkStreamID timestamp msg).h.state = controlStreamStateConnected := by
  have hne : h.state ≠ controlStreamStateNotConnected := by
    rw [hs]; decide
  rcases hmsg with hmsg | hmsg <;>
    simp only [hmsg, controlStreamHandler.Handle, if_neg hne, if_pos hs] <;>
    simp [controlStreamHandler.handleCreateStream,
      controlStreamHandler.handleCreateStream_handleCommand, hcmd, hreg, writtenMessages, hs]

/-- A concrete instance of C13: the createStream request of scenario S3 with an
exhausted registry. -/
theorem createStream_allocation_failure_witness :
    controlStreamHandler.Handle ⟨controlStreamStateConnected⟩ registryFails 3 0
      sampleCreateStream =
      ⟨⟨controlStreamStateConnected⟩, [.createStreamIfAvailable], .returned none⟩ :=
  (createStream_allocation_failure ⟨controlStreamStateConnected⟩ registryFails 3 0
    sampleCreateStream ⟨"createStream", 2, .NetConnectionCreateStream⟩ StreamsExhausted
    rfl (Or.inl rfl) rfl rfl).1

/-! ## C14: AMF3 and AMF0 command messages -/

/-- C14. Handling a command wrapped as `CommandMessageAMF3` gives the same handler,
the same calls (so the same written messages) and the same return value as
handling it wrapped as `CommandMessageAMF0`; every command message that `Handle`
writes, for any message handled, is a `CommandMessageAMF0`; and from
`NotConnected` or `Connected` the call returns, so the type assertion on the
connect reply does not fail. -/
theorem amf3_handled_as_amf0 (h : controlStreamHandler) (o : Outcomes) (chunkStreamID : Int)
    (timestamp : Nat) (cm : CommandMessage) :
    h.Handle o chunkStreamID timestamp (.CommandMessageAMF3 cm) =
      h.Handle o chunkStreamID timestamp (.CommandMessageAMF0 cm) ∧
    (∀ msg : Message, ∀ m ∈ writtenMessages (h.Handle o chunkStreamID timestamp msg).trace,
      isCommandMessage m = true → ∃ c, m = .CommandMessageAMF0 c) ∧
    (h.state = controlStreamStateNotConnected ∨ h.state = controlStreamStateConnected →
      ∀ msg : Message, ∃ err,
        (h.Handle o chunkStreamID timestamp msg).outcome = .returned err) := by
  refine ⟨?_, ?_, ?_⟩
  · simp only [controlStreamHandler.Handle, controlStreamHandler.handleConnect,
      controlStreamHandler.handleCreateStream]
  · intro msg
    simp only [controlStreamHandler.Handle, controlStreamHandler.handleConnect,
      controlStreamHandler.handleConnect_handleCommand, controlStreamHandler.handleCreateStream,
      controlStreamHandler.handleCreateStream_handleCommand, amf0Wrapper]
    repeat' split
    all_goals simp [writtenMessages, isCommandMessage]
  · intro hs msg
    exact (Handle_step h o chunkStreamID timestamp msg hs).1

/-- A concrete instance of C14: the connect request of scenario S2 sent as AMF3 is
answered like the AMF0 one, with a `_result` wrapped as `CommandMessageAMF0`. -/
theorem amf3_handled_as_amf0_witness :
    controlStreamHandler.initial.Handle allSucceed 3 0
        (.CommandMessageAMF3 ⟨"connect", 1, .NetConnectionConnect [("app", "live")]⟩) =
      controlStreamHandler.initial.Handle allSucceed 3 0 sampleConnect ∧
    writtenMessages (controlStreamHandler.initial.Handle allSucceed 3 0
        (.CommandMessageAMF3 ⟨"connect", 1, .NetConnectionConnect [("app", "live")]⟩)).trace =
      [.WinAckSize 2500000, .SetPeerBandwidth 1048576 1,
        .CommandMessageAMF0
          { CommandName := "_result"
            TransactionID := 1
            Command := .NetConnectionConnectResult "rtmp/testing" 250 1 "status"
              "NetConnection.Connect.Success" [("version", "testing")] none }] :=
  ⟨(amf3_handled_as_amf0 controlStreamHandler.initial allSucceed 3 0
      ⟨"connect", 1, .NetConnectionConnect [("app", "live")]⟩).1, by decide⟩

end rtmp

namespace rtmp

open message

/-! ## C19: the stream id is given back when the reply cannot be written -/

/-- In the registry of the spec, deleting the id that an allocation has just
handed out gives back the set of allocated ids from before the allocation. -/
theorem Registry.create_then_delete (reg : Registry) (k : Nat)
    (hk : reg.createStreamIfAvailable.1 = .ok k) :
    (reg.createStreamIfAvailable.2.deleteStream k).2.ids = reg.ids := by
  unfold Registry.createStreamIfAvailable at hk ⊢
  split at hk
  next k2 hfind =>
    have hkk : k2 = k := by
      simpa using hk
    subst hkk
    have hnot : k2 ∉ reg.ids := by
      simpa using List.find?_some hfind
    have hpos : 1 ≤ k2 := by
      have hmem := List.mem_of_find?_eq_some hfind
      rw [List.mem_range'_1] at hmem
      exact hmem.1
    have hcond : ¬ (k2 = 0 ∨ k2 ∉ insert k2 reg.ids) := by
      intro hc
      rcases hc with hc | hc
      · omega
      · exact hc (Finset.mem_insert_self _ _)
    simp only [hfind, Registry.deleteStream, if_neg hcond, Finset.erase_insert hnot]
  next hfind =>
    simp at hk

/-- C19. If, for a createStream command (AMF0 or AMF3) handled in `Connected`, the
registry allocates `streamID` and the write of the "_result" fails with `err`,
the calls `Handle` makes are the allocation, the write and `deleteStream` with
exactly `streamID`, and `Handle` returns `err`, whatever `deleteStream` answers;
replayed on a registry as the spec describes it, one that allocates `streamID`
here, these calls leave the set of allocated stream ids as it was. -/
theorem createStream_write_failure (h : controlStreamHandler) (o : Outcomes)
    (chunkStreamID : Int) (timestamp : Nat) (msg : Message) (cm : CommandMessage)
    (streamID : Nat) (err : Error) (reg : Registry)
    (hs : h.state = controlStreamStateConnected)
    (hmsg : msg = .CommandMessageAMF0 cm ∨ msg = .CommandMessageAMF3 cm)
    (hcmd : cm.Command = .NetConnectionCreateStream)
    (hreg : o.createStreamIfAvailable = .ok streamID)
    (hw0 : o.Write 0 = some err)
    (hmodel : reg.createStreamIfAvailable.1 = .ok streamID) :
    h.Handle o chunkStreamID timestamp msg =
      ⟨h, [.createStreamIfAvailable,
          .Write chunkStreamID timestamp
            (.CommandMessageAMF0
              { CommandName := "_result"
                TransactionID := cm.TransactionID
                Command := .NetConnectionCreateStreamResult streamID }),
          .deleteStream streamID],
        .returned (some err)⟩ ∧
    (reg.replay (h.Handle o chunkStreamID timestamp msg).trace).ids = reg.ids := by
  have hne : h.state ≠ controlStreamStateNotConnected := by
    rw [hs]; decide
  have hH : h.Handle o chunkStreamID timestamp msg =
      ⟨h, [.createStreamIfAvailable,
          .Write chunkStreamID timestamp
            (.CommandMessageAMF0
              { CommandName := "_result"
                TransactionID := cm.TransactionID
                Command := .NetConnectionCreateStreamResult streamID }),
          .deleteStream streamID],
        .returned (some err)⟩ := by
    rcases hmsg with hmsg | hmsg <;>
      simp only [hmsg, controlStreamHandler.Handle, if_neg hne, if_pos hs] <;>
      simp [controlStreamHandler.handleCreateStream,
        controlStreamHandler.handleCreateStream_handleCommand, amf0Wrapper, hcmd, hreg, hw0]
  refine ⟨hH, ?_⟩
  rw [hH]
  simp only [Registry.replay, List.foldl_cons, List.foldl_nil, Registry.step]
  exact Registry.create_then_delete reg streamID hmodel

/-- A concrete instance of C19: in scenario S3 the write of the reply fails with
error 6; stream id 1, just allocated by the initial registry, is deleted again
and the registry holds only the control stream, as before. -/
theorem createStream_write_failure_witness :
    Registry.initial.createStreamIfAvailable.1 = .ok 1 ∧
    (controlStreamHandler.Handle ⟨controlStreamStateConnected⟩ writeFails 3 0
      sampleCreateStream).outcome = .returned (some (Error.transport 6)) ∧
    (Registry.initial.replay
      (controlStreamHandler.Handle ⟨controlStreamStateConnected⟩ writeFails 3 0
        sampleCreateStream).trace).ids = {0} :=
  ⟨rfl, by decide,
    (createStream_write_failure ⟨controlStreamStateConnected⟩ writeFails 3 0 sampleCreateStream
      ⟨"createStream", 2, .NetConnectionCreateStream⟩ 1 (Error.transport 6) Registry.initial
      rfl (Or.inl rfl) rfl rfl rfl rfl).2⟩

end rtmp

namespace message

/-! ## C15, C16, C17: payload and 4-byte messages -/

theorem encodeAudioMessage_eq (enc : Encoder) (Payload : List Nat) :
    enc.encodeAudioMessage Payload =
      ({ enc with w := (enc.w.Write Payload).1 }, (enc.w.Write Payload).2.2) := by
  unfold Encoder.encodeAudioMessage
  rcases enc.w.Write Payload with ⟨w2, n, e⟩
  cases e <;> rfl

theorem encodeVideoMessage_eq (enc : Encoder) (Payload : List Nat) :
    enc.encodeVideoMessage Payload =
      ({ enc with w := (enc.w.Write Payload).1 }, (enc.w.Write Payload).2.2) := by
  unfold Encoder.encodeVideoMessage
  rcases enc.w.Write Payload with ⟨w2, n, e⟩
  cases e <;> rfl

theorem encodeAbortMessage_eq (enc : Encoder) (v : Nat) :
    enc.encodeAbortMessage v =
      ({ enc with w := (enc.w.Write (PutUint32 v)).1 }, (enc.w.Write (PutUint32 v)).2.2) := by
  simp only [Encoder.encodeAbortMessage]
  rcases enc.w.Write (PutUint32 v) with ⟨w2, n, e⟩
  cases e <;> rfl

theorem encodeAck_eq (enc : Encoder) (v : Nat) :
    enc.encodeAck v =
      ({ enc with w := (enc.w.Write (PutUint32 v)).1 }, (enc.w.Write (PutUint32 v)).2.2) := by
  simp only [Encoder.encodeAck]
  rcases enc.w.Write (PutUint32 v) with ⟨w2, n, e⟩
  cases e <;> rfl

theorem encodeWinAckSize_eq (enc : Encoder) (v : Nat) :
    enc.encodeWinAckSize v =
      ({ enc with w := (enc.w.Write (PutUint32 v)).1 }, (enc.w.Write (PutUint32 v)).2.2) := by
  simp only [Encoder.encodeWinAckSize]
  rcases enc.w.Write (PutUint32 v) with ⟨w2, n, e⟩
  cases e <;> rfl

/-- C15. For every `AudioMessage` and every `VideoMessage`, `Encode` makes one
`Write` call whose buffer is the message's `Payload` as it is, and returns the
error of that call: it fails only if the writer fails. With a writer that does
not fail it returns nil and the bytes written are exactly `Payload`. -/
theorem encode_audio_video_passthrough (c : Codecs) (enc : Encoder) (Payload : List Nat) :
    enc.Encode c (.AudioMessage Payload) =
      ({ enc with w := (enc.w.Write Payload).1 }, (enc.w.Write Payload).2.2) ∧
    enc.Encode c (.VideoMessage Payload) =
      ({ enc with w := (enc.w.Write Payload).1 }, (enc.w.Write Payload).2.2) ∧
    (enc.Encode c (.AudioMessage Payload)).1.w.calls = enc.w.calls ++ [Payload] ∧
    (enc.Encode c (.VideoMessage Payload)).1.w.calls = enc.w.calls ++ [Payload] ∧
    (enc.w.neverFails →
      (enc.Encode c (.AudioMessage Payload)).2 = none ∧
      enc.output c (.AudioMessage Payload) = Payload ∧
      (enc.Encode c (.VideoMessage Payload)).2 = none ∧
      enc.output c (.VideoMessage Payload) = Payload) := by
  refine ⟨encodeAudioMessage_eq enc Payload, encodeVideoMessage_eq enc Payload, ?_, ?_, ?_⟩
  · simp only [Encoder.Encode, encodeAudioMessage_eq, Writer.Write_calls]
  · simp only [Encoder.Encode, encodeVideoMessage_eq, Writer.Write_calls]
  · intro hw
    simp only [Encoder.output, Encoder.Encode, encodeAudioMessage_eq, encodeVideoMessage_eq,
      Writer.Write_of_neverFails _ _ hw, List.drop_left, and_self]

/-- Concrete instances of C15: an empty audio payload is written as an empty
buffer, and a video payload goes out unchanged. -/
theorem encode_audio_video_passthrough_witness :
    sampleEncoder.Encode sampleCodecs (.AudioMessage []) =
      ({ sampleEncoder with w := ⟨[[]], [], []⟩ }, none) ∧
    sampleEncoder.output sampleCodecs (.VideoMessage [23, 1, 0, 255]) = [23, 1, 0, 255] :=
  ⟨(encode_audio_video_passthrough sampleCodecs sampleEncoder []).1,
    ((encode_audio_video_passthrough sampleCodecs sampleEncoder [23, 1, 0, 255]).2.2.2.2
      (by decide)).2.2.2⟩

/-- C16, as amended. For every `AggregateMessage`, `Encode` returns the error
"Not implemented" and leaves the encoder and its writer unchanged: no payload
byte is written. -/
theorem encode_aggregate_not_implemented (c : Codecs) (enc : Encoder) (Payload : List Nat) :
    enc.Encode c (.AggregateMessage Payload) =
      (enc, some (Error.notImplemented "AggregateMessage")) ∧
    enc.output c (.AggregateMessage Payload) = [] := by
  simp [Encoder.output, Encoder.Encode, Encoder.encodeAggregateMessage]

/-- C16 fails as stated: for the aggregate payload `01 02`, with a writer that
does not fail, `Encode` returns an error and writes nothing. -/
theorem encode_aggregate_fails :
    sampleEncoder.w.neverFails ∧
    (sampleEncoder.Encode sampleCodecs (.AggregateMessage [1, 2])).2 =
      some (Error.notImplemented "AggregateMessage") ∧
    (sampleEncoder.Encode sampleCodecs (.AggregateMessage [1, 2])).2 ≠ none ∧
    sampleEncoder.output sampleCodecs (.AggregateMessage [1, 2]) ≠ [1, 2] := by
  refine ⟨by decide, by decide, by decide, by decide⟩

/-- C17. For every 32-bit value `v`, `Encode` of `AbortMessage`, `Ack` or
`WinAckSize` carrying `v` makes one `Write` call with exactly 4 bytes, the
big-endian representation of `v`, whatever `v` is, and returns the error of that
call: it fails only if the writer fails. With a writer that does not fail it
returns nil and exactly these 4 bytes are written. -/
theorem encode_uint32_messages (c : Codecs) (enc : Encoder) (v : Nat) (hv : v < 2 ^ 32) :
    (∀ m ∈ [Message.AbortMessage v, Message.Ack v, Message.WinAckSize v],
      enc.Encode c m =
        ({ enc with w := (enc.w.Write (PutUint32 v)).1 }, (enc.w.Write (PutUint32 v)).2.2) ∧
      (enc.Encode c m).1.w.calls = enc.w.calls ++ [PutUint32 v] ∧
      (enc.w.neverFails → (enc.Encode c m).2 = none ∧ enc.output c m = PutUint32 v)) ∧
    (PutUint32 v).length = 4 ∧
    ∃ b0 b1 b2 b3 : Nat, PutUint32 v = [b0, b1, b2, b3] ∧
      b0 < 256 ∧ b1 < 256 ∧ b2 < 256 ∧ b3 < 256 ∧
      b0 * 2 ^ 24 + b1 * 2 ^ 16 + b2 * 2 ^ 8 + b3 = v := by
  refine ⟨?_, PutUint32_length v, ?_⟩
  · intro m hm
    simp only [List.mem_cons, List.mem_singleton, List.not_mem_nil, or_false] at hm
    have hout : enc.w.neverFails →
        (enc.w.Write (PutUint32 v)).2.2 = none ∧
        (enc.w.Write (PutUint32 v)).1.written.drop enc.w.written.length = PutUint32 v := by
      intro hw
      simp only [Writer.Write_of_neverFails _ _ hw, List.drop_left, and_self]
    rcases hm with hm | hm | hm <;> subst hm <;>
      simp only [Encoder.output, Encoder.Encode, encodeAbortMessage_eq, encodeAck_eq,
        encodeWinAckSize_eq, Writer.Write_calls, true_and] <;>
      exact hout
  · refine ⟨v / 2 ^ 24 % 256, v / 2 ^ 16 % 256, v / 2 ^ 8 % 256, v % 256,
      PutUint32_eq v, ?_, ?_, ?_, ?_, ?_⟩ <;> omega

/-- A concrete instance of C17: `Ack(0xffffffff)` is accepted and written as
`ff ff ff ff`. -/
theorem encode_uint32_messages_witness :
    0xffffffff < 2 ^ 32 ∧
    sampleEncoder.Encode sampleCodecs (.Ack 0xffffffff) =
      ({ sampleEncoder with w := ⟨[[255, 255, 255, 255]], [255, 255, 255, 255], []⟩ }, none) :=
  ⟨by decide,
    ((encode_uint32_messages sampleCodecs sampleEncoder 0xffffffff (by decide)).1
      (.Ack 0xffffffff) (by decide)).1⟩

end message

namespace message

/-! ## C18: the steps of `CommandMessageAMF0` -/

/-- C18. `Encode` of a `CommandMessageAMF0` runs three steps on the writer, each on
what the step before left: the AMF0 encoding of `CommandName`, the AMF0 encoding
of `TransactionID`, the composed command body. If the first step fails, `Encode`
returns its error with the writer as the first step left it; if the second
fails, its error with the writer as the second step left it; otherwise the
result of the third step. A failed step is the last one performed. -/
theorem encodeCommandMessageAMF0_steps (c : Codecs) (enc : Encoder) (cm : CommandMessage) :
    (∀ err, (enc.commandNameStep c cm).2 = some err →
      enc.Encode c (.CommandMessageAMF0 cm) =
        ({ enc with w := (enc.commandNameStep c cm).1 }, some err)) ∧
    ((enc.commandNameStep c cm).2 = none →
      ∀ err, (enc.transactionIDStep c cm).2 = some err →
        enc.Encode c (.CommandMessageAMF0 cm) =
          ({ enc with w := (enc.transactionIDStep c cm).1 }, some err)) ∧
    ((enc.commandNameStep c cm).2 = none → (enc.transactionIDStep c cm).2 = none →
      enc.Encode c (.CommandMessageAMF0 cm) =
        ({ enc with w := (enc.commandBodyStep c cm).1 }, (enc.commandBodyStep c cm).2)) := by
  simp only [Encoder.Encode, Encoder.encodeCommandMessageAMF0, Encoder.encodeCommandMessage,
    Encoder.commandBodyStep, Encoder.transactionIDStep, Encoder.commandNameStep]
  rcases h1 : c.amf0NewEncoder.Encode (AMFValue.string cm.CommandName) enc.w with ⟨w1, e1⟩
  cases e1 with
  | some err1 => simp
  | none =>
    simp only [reduceCtorEq, false_implies, implies_true, forall_const, true_and]
    rcases h2 : c.amf0NewEncoder.Encode (AMFValue.number cm.TransactionID) w1 with ⟨w2, e2⟩
    cases e2 with
    | some err2 => simp
    | none =>
      simp only [reduceCtorEq, false_implies, implies_true, forall_const, true_and]
      rcases h3 : enc.amfMessageComposer c.amf0NewEncoder cm.Command w2 with ⟨w3, e3⟩
      cases e3 <;> rfl

/-- Concrete instances of C18: with the sample codec the three steps write `07`,
`01`, `05` in this order; over a writer whose second call fails with error 9,
`Encode` returns that error and the body is never handed to the writer. -/
theorem encodeCommandMessageAMF0_steps_witness :
    (sampleEncoder.Encode sampleCodecs
      (.CommandMessageAMF0 ⟨"_result", 1, .NetConnectionCreateStreamResult 1⟩)).1.w.calls =
      [[7], [1], [5]] ∧
    failingEncoder.Encode sampleCodecs
        (.CommandMessageAMF0 ⟨"_result", 1, .NetConnectionCreateStreamResult 1⟩) =
      ({ failingEncoder with
          w := (failingEncoder.transactionIDStep sampleCodecs
            ⟨"_result", 1, .NetConnectionCreateStreamResult 1⟩).1 },
        some (Error.transport 9)) ∧
    (failingEncoder.transactionIDStep sampleCodecs
      ⟨"_result", 1, .NetConnectionCreateStreamResult 1⟩).1.calls = [[7], [1]] :=
  ⟨by decide,
    (encodeCommandMessageAMF0_steps sampleCodecs failingEncoder
      ⟨"_result", 1, .NetConnectionCreateStreamResult 1⟩).2.1 (by decide)
      (Error.transport 9) (by decide),
    by decide⟩

end message

namespace rtmp

open message

/-! ## C20: `ChunkStreamerReader.Read` -/

theorem uint64_of_nonneg (n : Int) (hn : 0 ≤ n) : uint64 n % 2 ^ 64 = n.toNat % 2 ^ 64 := by
  unfold uint64
  omega

theorem Read_totalReadBytes_cast (r : ChunkStreamerReader) (a : ReadAnswer) :
    ((r.Read a).1.totalReadBytes : Int) = ((r.totalReadBytes : Int) + a.n) % 2 ^ 64 := by
  simp only [ChunkStreamerReader.Read, uint64]
  omega

theorem readAll_results (r : ChunkStreamerReader) (answers : List ReadAnswer) :
    (r.readAll answers).2 = answers.map fun a => (a.n, a.err) := by
  induction answers generalizing r with
  | nil => rfl
  | cons a rest ih =>
    simp only [ChunkStreamerReader.readAll, List.map_cons, ih]
    rfl

theorem readAll_totalReadBytes_cast (r : ChunkStreamerReader) (answers : List ReadAnswer) :
    ((r.readAll answers).1.totalReadBytes : Int) % 2 ^ 64 =
      ((r.totalReadBytes : Int) + (answers.map fun a => a.n).sum) % 2 ^ 64 := by
  induction answers generalizing r with
  | nil => simp [ChunkStreamerReader.readAll]
  | cons a rest ih =>
    simp only [ChunkStreamerReader.readAll, List.map_cons, List.sum_cons]
    rw [ih (r.Read a).1, Read_totalReadBytes_cast]
    omega

theorem readAll_totalReadBytes_lt (r : ChunkStreamerReader) (answers : List ReadAnswer)
    (hne : answers ≠ []) : (r.readAll answers).1.totalReadBytes < 2 ^ 64 := by
  induction answers generalizing r with
  | nil => exact absurd rfl hne
  | cons a rest ih =>
    simp only [ChunkStreamerReader.readAll]
    cases rest with
    | nil =>
      simp only [ChunkStreamerReader.readAll, ChunkStreamerReader.Read]
      omega
    | cons b rest2 => exact ih (r.Read a).1 (List.cons_ne_nil _ _)

/-- C20. `Read` returns exactly the count and the error of the underlying reader,
whether or not the error is nil, and for a count that is not negative it adds
exactly that count to `totalReadBytes`, modulo `2 ^ 64`. After any sequence of
reads on a reader whose counter is a `uint64`, the calls returned what the
underlying reader answered and `totalReadBytes` is its initial value plus the
sum of the returned counts, modulo `2 ^ 64`; when no count is negative and that
sum stays below `2 ^ 64`, `totalReadBytes` has not decreased. -/
theorem Read_counts (r : ChunkStreamerReader) (answers : List ReadAnswer)
    (hr : r.totalReadBytes < 2 ^ 64) :
    (∀ a : ReadAnswer, (r.Read a).2 = (a.n, a.err) ∧
      (0 ≤ a.n → (r.Read a).1.totalReadBytes = (r.totalReadBytes + a.n.toNat) % 2 ^ 64)) ∧
    (r.readAll answers).2 = (answers.map fun a => (a.n, a.err)) ∧
    ((r.readAll answers).1.totalReadBytes : Int) =
      ((r.totalReadBytes : Int) + (answers.map fun a => a.n).sum) % 2 ^ 64 ∧
    ((∀ a ∈ answers, 0 ≤ a.n) →
      (r.totalReadBytes : Int) + (answers.map fun a => a.n).sum < 2 ^ 64 →
      r.totalReadBytes ≤ (r.readAll answers).1.totalReadBytes ∧
      ((r.readAll answers).1.totalReadBytes : Int) =
        (r.totalReadBytes : Int) + (answers.map fun a => a.n).sum) := by
  have hlt : (r.readAll answers).1.totalReadBytes < 2 ^ 64 := by
    cases answers with
    | nil => exact hr
    | cons a rest => exact readAll_totalReadBytes_lt r (a :: rest) (List.cons_ne_nil _ _)
  have hcast := readAll_totalReadBytes_cast r answers
  have hmod : ((r.readAll answers).1.totalReadBytes : Int) =
      ((r.totalReadBytes : Int) + (answers.map fun a => a.n).sum) % 2 ^ 64 := by
    omega
  refine ⟨?_, readAll_results r answers, hmod, ?_⟩
  · intro a
    refine ⟨rfl, fun ha => ?_⟩
    simp only [ChunkStreamerReader.Read, uint64]
    omega
  · intro hnn hsum
    have hs : 0 ≤ (answers.map fun a => a.n).sum := by
      apply List.sum_nonneg
      intro x hx
      rw [List.mem_map] at hx
      obtain ⟨a, ha, rfl⟩ := hx
      exact hnn a ha
    omega

/-- A concrete instance of C20: three reads answering 5 bytes, 3 bytes together
with an error, and 0 bytes take the counter from 10 to 18; the second call
returns the count 3 and the error. -/
theorem Read_counts_witness :
    ((ChunkStreamerReader.mk 10).readAll
      [⟨5, none⟩, ⟨3, some (Error.transport 4)⟩, ⟨0, none⟩]).2 =
      [(5, none), (3, some (Error.transport 4)), (0, none)] ∧
    ((ChunkStreamerReader.mk 10).readAll
      [⟨5, none⟩, ⟨3, some (Error.transport 4)⟩, ⟨0, none⟩]).1.totalReadBytes = 18 ∧
    ((ChunkStreamerReader.mk (2 ^ 64 - 1)).Read ⟨2, none⟩).1.totalReadBytes = 1 :=
  ⟨(Read_counts (ChunkStreamerReader.mk 10)
      [⟨5, none⟩, ⟨3, some (Error.transport 4)⟩, ⟨0, none⟩] (by decide)).2.1,
    by decide, by decide⟩

end rtmp
